import Mathlib

/-!
Verification of the whiteboard collaboration relay
(`src/socket/index.ts`, function `setupSocketServer` and its helpers).

The relay keeps a process-wide registry `rooms : Map<string, Set<RoomClient>>`,
admits WebSocket connections on paths `/yjs-ws/board:<boardId>?token=...`,
and fans frames out inside each room.  This file is a shallow embedding of
that code:

* a `RoomClient` mirrors the source interface of the same name; the extra
  `clientId` field models JavaScript object identity (each connection creates
  a fresh object, so `clientId` is unique per connection), and `wsOpen`
  models `ws.readyState === WebSocket.OPEN`;
* the registry is an association list `Registry` mirroring the JS `Map`
  (insertion order preserved, `set` replaces in place, `delete` removes);
* a frame is its byte sequence (`List Nat`, one entry per byte) together
  with the result of `JSON.parse(message.toString())`, modelled as an
  `Option Json` oracle: `none` means `JSON.parse` threw;
* outbound traffic is a list of `Send`s; `OutMsg.raw bytes` models
  `ws.send(message)` (the original buffer, byte for byte), and the other
  constructors model the `JSON.stringify`-ed control events structurally
  (the source serializes `username` for what the specification calls the
  display name).
-/

namespace WhiteBoard

/-- A JSON value, as produced by `JSON.parse`.  Object fields are listed in
order with distinct keys (the shape `JSON.parse` yields). -/
inductive Json where
  | null : Json
  | bool (b : Bool) : Json
  | num (n : Int) : Json
  | str (s : String) : Json
  | arr (elems : List Json) : Json
  | obj (fields : List (String × Json)) : Json

/-- First binding of a key in a JSON object field list. -/
def lookupField : List (String × Json) → String → Option Json
  | [], _ => none
  | (k, v) :: rest, key => if k = key then some v else lookupField rest key

/-- JavaScript property access `j.key` on a parsed value: `undefined`
(`none`) unless `j` is an object with the field. -/
def Json.getField : Json → String → Option Json
  | Json.obj fields, key => lookupField fields key
  | _, _ => none

/-- JavaScript falsiness of a JSON value (`null`, `false`, `0`, `""`). -/
def jsFalsy : Json → Bool
  | Json.null => true
  | Json.bool b => !b
  | Json.num n => n == 0
  | Json.str s => s == ""
  | _ => false

/-- The source expression `client.cursor || null` (`sendActiveUsers`):
an absent (`undefined`) or falsy cursor becomes JSON `null`. -/
def cursorOrNull : Option Json → Json
  | none => Json.null
  | some v => if jsFalsy v then Json.null else v

/-- The source interface `RoomClient` (`ws`, `userId`, `lastPing`,
`username`, `cursor`, `color`).  `clientId` stands for the object identity
of the entry in the room `Set`; `wsOpen` for
`ws.readyState === WebSocket.OPEN`.  `cursor` holds whatever JSON value the
last `cursor-position` frame carried (`none` = never set / `undefined`). -/
structure RoomClient where
  clientId : Nat
  userId : String
  lastPing : Nat
  username : String
  cursor : Option Json
  color : String
  wsOpen : Bool

/-- One roster entry of the `active-users` snapshot
(`sendActiveUsers`: `userId`, `username`, `cursor || null`, `color`). -/
structure UserEntry where
  userId : String
  username : String
  cursor : Json
  color : String

/-- An outbound frame.  `raw` is `ws.send(message)` with the original bytes;
the rest are the `JSON.stringify`-ed control events, modelled structurally
with the source's field names and order. -/
inductive OutMsg where
  | raw (bytes : List Nat) : OutMsg
  | cursorUpdate (userId : String) (cursor : Option Json) (username : String) (color : String) : OutMsg
  | userJoined (userId : String) (username : String) (color : String) : OutMsg
  | userLeft (userId : String) : OutMsg
  | activeUsers (users : List UserEntry) : OutMsg
  | connectionAck (userId : String) (color : String) (username : String) : OutMsg

/-- One delivery performed by the relay: `recipient` is the `clientId` of
the `RoomClient` whose `ws.send` was called. -/
structure Send where
  recipient : Nat
  payload : OutMsg

/-- The code points `String.prototype.trim` strips (ECMAScript WhiteSpace
∪ LineTerminator): TAB, LF, VT, FF, CR, SPACE, NBSP, OGHAM SPACE MARK,
U+2000-U+200A, LINE SEPARATOR, PARAGRAPH SEPARATOR, NARROW NO-BREAK
SPACE, MEDIUM MATHEMATICAL SPACE, IDEOGRAPHIC SPACE, ZWNBSP/BOM. -/
def isJsWhitespaceCode (c : Nat) : Bool :=
  c == 9 || c == 10 || c == 11 || c == 12 || c == 13 || c == 32 ||
  c == 0xa0 || c == 0x1680 ||
  (decide (0x2000 ≤ c) && decide (c ≤ 0x200a)) ||
  c == 0x2028 || c == 0x2029 || c == 0x202f || c == 0x205f ||
  c == 0x3000 || c == 0xfeff

/-- A UTF-8 continuation byte. -/
def utf8Cont (b : Nat) : Bool :=
  decide (0x80 ≤ b) && decide (b ≤ 0xbf)

/-- Decode the first code point of a UTF-8 byte sequence, as
`Buffer.prototype.toString("utf8")` does: a well-formed sequence decodes
to its code point (overlong forms, surrogates and truncated sequences are
malformed); a malformed sequence yields the replacement character U+FFFD.
How many bytes a malformed sequence consumes (here: the lead byte) cannot
affect the classification sniff, because U+FFFD is neither whitespace nor
a brace, so the whitespace skip stops at it either way. -/
def utf8Next : List Nat → Option (Nat × List Nat)
  | [] => none
  | b :: rest =>
    if b < 0x80 then some (b, rest)
    else if decide (0xc2 ≤ b) && decide (b ≤ 0xdf) then
      match rest with
      | b2 :: rest2 =>
        if utf8Cont b2 then some ((b - 0xc0) * 0x40 + (b2 - 0x80), rest2)
        else some (0xfffd, rest)
      | [] => some (0xfffd, [])
    else if decide (0xe0 ≤ b) && decide (b ≤ 0xef) then
      match rest with
      | b2 :: b3 :: rest3 =>
        if (utf8Cont b2 && utf8Cont b3) &&
           !(b == 0xe0 && decide (b2 < 0xa0)) &&
           !(b == 0xed && decide (0xa0 ≤ b2)) then
          some ((b - 0xe0) * 0x1000 + (b2 - 0x80) * 0x40 + (b3 - 0x80), rest3)
        else some (0xfffd, rest)
      | _ => some (0xfffd, rest)
    else if decide (0xf0 ≤ b) && decide (b ≤ 0xf4) then
      match rest with
      | b2 :: b3 :: b4 :: rest4 =>
        if (utf8Cont b2 && utf8Cont b3 && utf8Cont b4) &&
           !(b == 0xf0 && decide (b2 < 0x90)) &&
           !(b == 0xf4 && decide (0x90 ≤ b2)) then
          some ((b - 0xf0) * 0x40000 + (b2 - 0x80) * 0x1000 +
            (b3 - 0x80) * 0x40 + (b4 - 0x80), rest4)
        else some (0xfffd, rest)
      | _ => some (0xfffd, rest)
    else some (0xfffd, rest)

/-- First non-whitespace code point of the decoded byte sequence, skipping
the characters `trim` strips.  Structural fuel (each decode step consumes
at least one byte, so `bytes.length` steps suffice); `none` when the
string is all whitespace or empty. -/
def sniffFirstAux : Nat → List Nat → Option Nat
  | 0, _ => none
  | Nat.succ fuel, bytes =>
    match utf8Next bytes with
    | none => none
    | some (c, rest) =>
      if isJsWhitespaceCode c then sniffFirstAux fuel rest else some c

/-- The classification sniff
`message.toString().trim().match(/^[\x7b\x5b]/)` (source line 263): the
payload is UTF-8-decoded, leading JavaScript whitespace (ASCII *and*
Unicode: NBSP, en/em spaces, BOM, ...) is stripped, and the frame is
JSON-sniffed iff the first remaining character is the opening brace
`\x7b` (U+007B) or bracket `\x5b` (U+005B). -/
def isJsonSniff (bytes : List Nat) : Bool :=
  match sniffFirstAux bytes.length bytes with
  | some c => c == 123 || c == 91
  | none => false

/-- One `roomClients.forEach` send loop of the source: every client passing
`guard` gets `payload` via `ws.send`, in set-insertion order. -/
def loopSends (roomClients : List RoomClient) (guard : RoomClient → Bool)
    (payload : OutMsg) : List Send :=
  (roomClients.filter guard).map fun c => Send.mk c.clientId payload

/-- The guard of the four exclude-the-sender loops:
`client.userId !== decoded.id && client.ws.readyState === WebSocket.OPEN`. -/
def othersGuard (originUserId : String) (c : RoomClient) : Bool :=
  c.userId != originUserId && c.wsOpen

/-- The guard of the `invitation-response` loop:
`client.userId === msgData.inviterId && client.ws.readyState === OPEN`.
JavaScript strict equality of the string `userId` with an arbitrary JSON
value is true only when the value is that same string. -/
def inviterGuard (inviterId : Option Json) (c : RoomClient) : Bool :=
  (match inviterId with
   | some (Json.str s) => c.userId == s
   | _ => false) && c.wsOpen

/-- The body of the `ws.on("message")` handler after the
`rooms.get(roomInfo)` guard succeeded (source lines 260-330).  Returns the
sender's updated `RoomClient` fields and the list of sends performed.
The source mutates nothing else and contains no `close()` call here; a
thrown `JSON.parse` is swallowed by the surrounding `try`/`catch` (which
only logs), hence the `(sender, [])` result in the `parsed = none` case —
note this happens *before* the `lastPing` refresh on that path. -/
def relayFrame (now : Nat) (roomClients : List RoomClient) (sender : RoomClient)
    (bytes : List Nat) (parsed : Option Json) : RoomClient × List Send :=
  if isJsonSniff bytes then
    match parsed with
    | none => (sender, [])
    | some msgData =>
      let sender1 := { sender with lastPing := now }
      match msgData.getField "type" with
      | some (Json.str t) =>
        if t = "cursor-position" then
          ({ sender1 with cursor := msgData.getField "cursor" },
           loopSends roomClients (othersGuard sender.userId)
             (OutMsg.cursorUpdate sender.userId (msgData.getField "cursor")
               sender.username sender.color))
        else if t = "board-update" then
          (sender1, loopSends roomClients (othersGuard sender.userId) (OutMsg.raw bytes))
        else if t = "invitation-response" then
          (sender1, loopSends roomClients (inviterGuard (msgData.getField "inviterId"))
            (OutMsg.raw bytes))
        else (sender1, [])
      | _ => (sender1, [])
  else
    ({ sender with lastPing := now },
     loopSends roomClients (othersGuard sender.userId) (OutMsg.raw bytes))

/-- The room registry `rooms : Map<string, Set<RoomClient>>`.  JS `Map`
iteration/update order: an association list where `set` replaces the first
(unique) occurrence in place and appends fresh keys. -/
abbrev Registry := List (String × List RoomClient)

/-- `rooms.get(roomInfo)`. -/
def lookupRoom : Registry → String → Option (List RoomClient)
  | [], _ => none
  | (k, v) :: rest, key => if k = key then some v else lookupRoom rest key

/-- `rooms.set(roomInfo, clients)`. -/
def setRoom : Registry → String → List RoomClient → Registry
  | [], key, cs => [(key, cs)]
  | (k, v) :: rest, key, cs =>
    if k = key then (key, cs) :: rest else (k, v) :: setRoom rest key cs

/-- `rooms.delete(roomInfo)`. -/
def removeRoom (reg : Registry) (key : String) : Registry :=
  reg.filter fun p => p.1 != key

/-- The full `ws.on("message")` handler (source lines 255-331), including
the `if (!roomClients) return;` guard. -/
def onMessage (reg : Registry) (roomInfo : String) (now : Nat) (sender : RoomClient)
    (bytes : List Nat) (parsed : Option Json) : RoomClient × List Send :=
  match lookupRoom reg roomInfo with
  | none => (sender, [])
  | some roomClients => relayFrame now roomClients sender bytes parsed

/-- Source lines 213-226: create the room if absent, then
`rooms.get(roomInfo)!.add(roomClient)` (set insertion appends). -/
def joinRoom (reg : Registry) (roomInfo : String) (c : RoomClient) : Registry :=
  let reg1 := if (lookupRoom reg roomInfo).isSome then reg else setRoom reg roomInfo []
  setRoom reg1 roomInfo (((lookupRoom reg1 roomInfo).getD []) ++ [c])

/-- `sendActiveUsers` (source lines 84-107): map *every* client of the room
to a roster entry and send the list to `targetClient` if its socket is open. -/
def sendActiveUsers (reg : Registry) (roomInfo : String) (targetClient : RoomClient) :
    List Send :=
  match lookupRoom reg roomInfo with
  | none => []
  | some roomClients =>
    let users := roomClients.map fun c =>
      UserEntry.mk c.userId c.username (cursorOrNull c.cursor) c.color
    if targetClient.wsOpen then
      [Send.mk targetClient.clientId (OutMsg.activeUsers users)]
    else []

/-- The `ws.on("close")` handler (source lines 334-357): broadcast
`user-left` to every open client with a different `userId`, delete the
closing client from the set (deletion by object identity = `clientId`),
and delete the room when the set became empty. -/
def closeHandler (reg : Registry) (roomInfo : String) (roomClient : RoomClient) :
    Registry × List Send :=
  match lookupRoom reg roomInfo with
  | none => (reg, [])
  | some roomClients =>
    let sends := loopSends roomClients (othersGuard roomClient.userId)
      (OutMsg.userLeft roomClient.userId)
    let remaining := roomClients.filter fun c => c.clientId != roomClient.clientId
    if remaining.isEmpty then (removeRoom reg roomInfo, sends)
    else (setRoom reg roomInfo remaining, sends)

/-- One tick of `cleanupInterval` (source lines 156-170): in every room,
close and delete each client silent for more than 30000 ms
(`now - client.lastPing > 30000`; `Nat` subtraction truncates at zero,
which agrees with the JS comparison since the threshold is positive), then
delete rooms whose set became empty.  Returns the surviving registry and
the evicted `(roomInfo, client)` pairs, whose sockets were closed (each
will fire its own `close` event later).  The tick itself sends nothing. -/
def cleanupTick (reg : Registry) (now : Nat) : Registry × List (String × RoomClient) :=
  let reg' := (reg.map fun p => (p.1, p.2.filter fun c => !(30000 < now - c.lastPing))).filter
    fun p => !p.2.isEmpty
  let evicted := (reg.map fun p =>
    (p.2.filter fun c => 30000 < now - c.lastPing).map fun c => (p.1, c)).flatten
  (reg', evicted)

/-- A registry holds no empty room. -/
def noEmptyRooms (reg : Registry) : Bool :=
  reg.all fun p => !p.2.isEmpty

/-- The payload `jwt.verify` yields (source interface `DecodedUser`). -/
structure DecodedUser where
  id : String
  username : Option String
deriving DecidableEq, Repr

/-- The row `prisma.user.findUnique` selects (`id`, `username`, `name`);
nullable columns are `Option`. -/
structure UserRow where
  id : String
  username : Option String
  name : Option String
deriving DecidableEq, Repr

/-- JavaScript `a || fallback` on a nullable string: `null`/`undefined` and
the empty string are falsy. -/
def strOr (a : Option String) (fallback : String) : String :=
  match a with
  | some s => if s = "" then fallback else s
  | none => fallback

/-- Source line 222: `user?.name || user?.username || "Anonymous"`. -/
def displayNameOf (user : Option UserRow) : String :=
  match user with
  | none => "Anonymous"
  | some u => strOr u.name (strOr u.username "Anonymous")

/-- The external collaborators the connection handler awaits.  `jwtVerify`
models `jwt.verify` (`none` = it threw); `isUserBoardMember` and `findUser`
model `boardService.isUserBoardMember` and `prisma.user.findUnique`, with
`Except.error` standing for a thrown/rejected call, which the handler's
`catch` turns into a 1011 close.  `randColor` is the colour
`generateRandomColor()` happened to pick for this connection. -/
structure AdmitEnv where
  jwtVerify : String → Option DecodedUser
  isUserBoardMember : String → String → Except String Bool
  findUser : String → Except String (Option UserRow)
  randColor : String

/-- JavaScript `s.startsWith(pre)`, written over the character list so
that it evaluates by kernel reduction (`String.startsWith` itself is
defined by well-founded recursion and does not). -/
def strStartsWith (s pre : String) : Bool :=
  pre.data.isPrefixOf s.data

/-- `verifyToken` (source lines 52-67): takes `token.split("/")[0]` — the
characters before the first slash — and verifies it; any verification
error is caught and becomes `null`. -/
def verifyToken (env : AdmitEnv) (token : String) : Option DecodedUser :=
  env.jwtVerify (String.mk (token.data.takeWhile (fun c => c != '/')))

/-- Outcome of the `wsServer.on("connection")` handler's admission part:
either `ws.close(code, reason)` or a registered session. -/
inductive AdmitResult where
  | rejected (code : Nat) (reason : String) : AdmitResult
  | admitted (boardId : String) (userId : String) : AdmitResult
deriving DecidableEq, Repr

/-- Source line 180: `!roomInfo?.startsWith("board:")` — fails when the
path had no segments at all. -/
def roomInfoOk : Option String → Bool
  | some r => strStartsWith r "board:"
  | none => false

/-- Source line 180: `!token` — `url.searchParams.get` returns `null` for
an absent parameter, and the empty string (also falsy) for `?token=`. -/
def tokenTruthy : Option String → Bool
  | some t => t != ""
  | none => false

/-- Source line 193: `roomInfo.replace("board:", "")`.  `String.replace`
with a string pattern replaces only the first occurrence; every caller has
already checked `startsWith "board:"`, so this strips the prefix. -/
def boardIdOf (roomInfo : String) : String :=
  if strStartsWith roomInfo "board:" then String.mk (roomInfo.data.drop 6) else roomInfo

/-- The admitted part of the connection handler (source lines 186-247 plus
the `connection-ack` at 368-375): verify the token, check membership, look
up the user row, register the `RoomClient`, broadcast `user-joined` to
open clients with a different `userId`, send the `active-users` snapshot
to the newcomer, and send `connection-ack`.  A thrown external call lands
in the handler's `catch` (source 376-379): `ws.close(1011, ...)`. -/
def connectAuthed (env : AdmitEnv) (reg : Registry) (roomInfo : String)
    (token : String) (newClientId : Nat) (now : Nat) (newClientOpen : Bool) :
    Registry × AdmitResult × List Send :=
  match verifyToken env token with
  | none => (reg, AdmitResult.rejected 1008 "Authentication failed", [])
  | some decoded =>
    match env.isUserBoardMember (boardIdOf roomInfo) decoded.id with
    | Except.error _ => (reg, AdmitResult.rejected 1011 "Internal server error", [])
    | Except.ok false => (reg, AdmitResult.rejected 1008 "Not authorized", [])
    | Except.ok true =>
      match env.findUser decoded.id with
      | Except.error _ => (reg, AdmitResult.rejected 1011 "Internal server error", [])
      | Except.ok user =>
        let rc : RoomClient :=
          { clientId := newClientId, userId := decoded.id, lastPing := now,
            username := displayNameOf user, cursor := none,
            color := env.randColor, wsOpen := newClientOpen }
        let reg2 := joinRoom reg roomInfo rc
        let roomClients := (lookupRoom reg2 roomInfo).getD []
        let joinSends := loopSends roomClients (othersGuard decoded.id)
          (OutMsg.userJoined decoded.id rc.username rc.color)
        let activeSends := sendActiveUsers reg2 roomInfo rc
        (reg2, AdmitResult.admitted (boardIdOf roomInfo) decoded.id,
         joinSends ++ activeSends ++
           [Send.mk rc.clientId (OutMsg.connectionAck decoded.id rc.color rc.username)])

/-- The whole `wsServer.on("connection")` handler (source lines 173-380).
`pathSegments` is `url.pathname.split("/").filter(Boolean)`; `roomInfo` its
last element.  The guard at line 180 rejects a missing `board:` prefix or
a missing/empty token with `ws.close(1008, "Invalid connection
parameters")` before any room state is touched. -/
def connect (env : AdmitEnv) (reg : Registry) (pathSegments : List String)
    (token : Option String) (newClientId : Nat) (now : Nat) (newClientOpen : Bool) :
    Registry × AdmitResult × List Send :=
  let roomInfo? := pathSegments.getLast?
  if roomInfoOk roomInfo? && tokenTruthy token then
    connectAuthed env reg (roomInfo?.getD "") (token.getD "") newClientId now newClientOpen
  else
    (reg, AdmitResult.rejected 1008 "Invalid connection parameters", [])

/-- The deliveries among `sends` that went to the client whose object
identity is `cid`. -/
def sendsTo (sends : List Send) (cid : Nat) : List Send :=
  sends.filter fun sd => sd.recipient == cid

/-- Whether the client with identity `cid` is in the room's session set. -/
def memberOf (reg : Registry) (roomInfo : String) (cid : Nat) : Bool :=
  match lookupRoom reg roomInfo with
  | none => false
  | some l => l.any fun c => c.clientId == cid

/-! ### Helper lemmas about the send loops -/

theorem loopSends_cons (d : RoomClient) (cl : List RoomClient)
    (g : RoomClient → Bool) (p : OutMsg) :
    loopSends (d :: cl) g p =
      if g d then Send.mk d.clientId p :: loopSends cl g p else loopSends cl g p := by
  simp only [loopSends, List.filter_cons]
  split <;> simp

theorem sendsTo_nil (cid : Nat) : sendsTo [] cid = [] := rfl

theorem sendsTo_cons (sd : Send) (l : List Send) (cid : Nat) :
    sendsTo (sd :: l) cid =
      if sd.recipient == cid then sd :: sendsTo l cid else sendsTo l cid := by
  simp [sendsTo, List.filter_cons]

theorem sendsTo_append (l l' : List Send) (cid : Nat) :
    sendsTo (l ++ l') cid = sendsTo l cid ++ sendsTo l' cid := by
  simp [sendsTo, List.filter_append]

theorem mem_loopSends {cl : List RoomClient} {c : RoomClient} (hc : c ∈ cl)
    {g : RoomClient → Bool} (hg : g c = true) (p : OutMsg) :
    Send.mk c.clientId p ∈ loopSends cl g p := by
  simp only [loopSends, List.mem_map]
  exact ⟨c, List.mem_filter.mpr ⟨hc, hg⟩, rfl⟩

theorem of_mem_loopSends {cl : List RoomClient} {g : RoomClient → Bool}
    {p : OutMsg} {sd : Send} (h : sd ∈ loopSends cl g p) :
    ∃ c, c ∈ cl ∧ g c = true ∧ sd = Send.mk c.clientId p := by
  simp only [loopSends, List.mem_map] at h
  obtain ⟨c, hc, he⟩ := h
  obtain ⟨hmem, hg⟩ := List.mem_filter.mp hc
  exact ⟨c, hmem, hg, he.symm⟩

theorem sendsTo_loopSends_of_not_mem {cl : List RoomClient}
    {g : RoomClient → Bool} {p : OutMsg} {cid : Nat}
    (h : cid ∉ cl.map RoomClient.clientId) :
    sendsTo (loopSends cl g p) cid = [] := by
  induction cl with
  | nil => rfl
  | cons d rest ih =>
    simp only [List.map_cons, List.mem_cons, not_or] at h
    obtain ⟨hne, hrest⟩ := h
    rw [loopSends_cons]
    split
    · rw [sendsTo_cons]
      have : (Send.mk d.clientId p).recipient ≠ cid := fun he => hne he.symm
      simp only [beq_eq_false_iff_ne.mpr this, if_false]
      exact ih hrest
    · exact ih hrest

theorem sendsTo_loopSends {cl : List RoomClient} {c : RoomClient}
    (hnodup : (cl.map RoomClient.clientId).Nodup) (hc : c ∈ cl)
    (g : RoomClient → Bool) (p : OutMsg) :
    sendsTo (loopSends cl g p) c.clientId =
      if g c then [Send.mk c.clientId p] else [] := by
  induction cl with
  | nil => cases hc
  | cons d rest ih =>
    rw [List.map_cons, List.nodup_cons] at hnodup
    obtain ⟨hd, hrest⟩ := hnodup
    rcases List.mem_cons.mp hc with rfl | hcr
    · rw [loopSends_cons]
      have htail : sendsTo (loopSends rest g p) c.clientId = [] :=
        sendsTo_loopSends_of_not_mem hd
      by_cases hg : g c = true
      · simp [hg, sendsTo_cons, htail]
      · rw [if_neg hg, if_neg hg]
        exact htail
    · have hne : d.clientId ≠ c.clientId := fun he =>
        hd (he ▸ List.mem_map_of_mem RoomClient.clientId hcr)
      by_cases hg : g d = true
      · rw [loopSends_cons, if_pos hg, sendsTo_cons]
        simp only [beq_eq_false_iff_ne.mpr hne, if_false]
        exact ih hrest hcr
      · rw [loopSends_cons, if_neg hg]
        exact ih hrest hcr

/-! ### Helper lemmas about the registry -/

theorem lookup_setRoom_self (reg : Registry) (key : String) (cs : List RoomClient) :
    lookupRoom (setRoom reg key cs) key = some cs := by
  induction reg with
  | nil => simp [setRoom, lookupRoom]
  | cons p rest ih =>
    obtain ⟨k, v⟩ := p
    by_cases h : k = key
    · simp [setRoom, h, lookupRoom]
    · simp [setRoom, h, lookupRoom, ih]

theorem lookup_removeRoom_self (reg : Registry) (key : String) :
    lookupRoom (removeRoom reg key) key = none := by
  induction reg with
  | nil => rfl
  | cons p rest ih =>
    obtain ⟨k, v⟩ := p
    by_cases h : k = key
    · simpa [removeRoom, h] using ih
    · simpa [removeRoom, List.filter_cons, bne_iff_ne, h, lookupRoom] using ih

theorem noEmpty_setRoom {reg : Registry} (h : noEmptyRooms reg = true)
    {cs : List RoomClient} (hcs : cs.isEmpty = false) (key : String) :
    noEmptyRooms (setRoom reg key cs) = true := by
  induction reg with
  | nil => simp [setRoom, noEmptyRooms, hcs]
  | cons p rest ih =>
    obtain ⟨k, v⟩ := p
    simp only [noEmptyRooms, List.all_cons, Bool.and_eq_true] at h
    obtain ⟨hv, hrest⟩ := h
    by_cases hk : k = key
    · simp [setRoom, hk, noEmptyRooms, hcs, List.all_cons]
      simpa [noEmptyRooms] using hrest
    · simp only [setRoom, hk, if_false, noEmptyRooms, List.all_cons, Bool.and_eq_true]
      exact ⟨hv, ih hrest⟩

theorem noEmpty_removeRoom {reg : Registry} (h : noEmptyRooms reg = true)
    (key : String) : noEmptyRooms (removeRoom reg key) = true := by
  induction reg with
  | nil => rfl
  | cons p rest ih =>
    obtain ⟨k, v⟩ := p
    simp only [noEmptyRooms, List.all_cons, Bool.and_eq_true] at h
    obtain ⟨hv, hrest⟩ := h
    by_cases hk : k = key
    · simpa [removeRoom, List.filter_cons, hk] using ih hrest
    · have hbne : ((k, v).1 != key) = true := by simp [hk]
      simp only [removeRoom, List.filter_cons, hbne, if_true] at ih ⊢
      simp only [noEmptyRooms, List.all_cons, Bool.and_eq_true]
      exact ⟨hv, ih hrest⟩

theorem lookup_none_of_not_mem {reg : Registry} {key : String}
    (h : key ∉ reg.map Prod.fst) : lookupRoom reg key = none := by
  induction reg with
  | nil => rfl
  | cons p rest ih =>
    obtain ⟨k, v⟩ := p
    simp only [List.map_cons, List.mem_cons, not_or] at h
    obtain ⟨hne, hrest⟩ := h
    simp only [lookupRoom]
    rw [if_neg (fun he => hne he.symm)]
    exact ih hrest

theorem setRoom_setRoom (reg : Registry) (key : String) (a b : List RoomClient) :
    setRoom (setRoom reg key a) key b = setRoom reg key b := by
  induction reg with
  | nil => simp [setRoom]
  | cons p rest ih =>
    obtain ⟨k, v⟩ := p
    by_cases h : k = key
    · simp [setRoom, h]
    · simp [setRoom, h, ih]

theorem lookup_joinRoom (reg : Registry) (roomInfo : String) (c : RoomClient) :
    lookupRoom (joinRoom reg roomInfo c) roomInfo =
      some ((lookupRoom reg roomInfo).getD [] ++ [c]) := by
  unfold joinRoom
  cases hl : lookupRoom reg roomInfo with
  | none =>
    simp only [hl, Option.isSome_none, Bool.false_eq_true, if_false,
      lookup_setRoom_self, Option.getD_some, Option.getD_none]
  | some v =>
    simp only [hl, Option.isSome_some, if_true, Option.getD_some]
    exact lookup_setRoom_self ..

theorem noEmpty_joinRoom {reg : Registry} (h : noEmptyRooms reg = true)
    (roomInfo : String) (c : RoomClient) :
    noEmptyRooms (joinRoom reg roomInfo c) = true := by
  unfold joinRoom
  cases hl : lookupRoom reg roomInfo with
  | none =>
    simp only [hl, Option.isSome_none, Bool.false_eq_true, if_false,
      lookup_setRoom_self, Option.getD_some, setRoom_setRoom]
    exact noEmpty_setRoom h (by simp) roomInfo
  | some v =>
    simp only [hl, Option.isSome_some, if_true, Option.getD_some]
    exact noEmpty_setRoom h (by simp) roomInfo

theorem noEmpty_closeHandler {reg : Registry} (h : noEmptyRooms reg = true)
    (roomInfo : String) (rc : RoomClient) :
    noEmptyRooms (closeHandler reg roomInfo rc).1 = true := by
  unfold closeHandler
  cases hl : lookupRoom reg roomInfo with
  | none => exact h
  | some roomClients =>
    simp only []
    by_cases hemp : (roomClients.filter fun c => c.clientId != rc.clientId).isEmpty = true
    · simp only [hemp, if_true]
      exact noEmpty_removeRoom h roomInfo
    · simp only [hemp, if_false]
      exact noEmpty_setRoom h (Bool.not_eq_true _ ▸ hemp) roomInfo

/-- `(cleanupTick reg now).1` spelled out. -/
theorem cleanupTick_fst (reg : Registry) (now : Nat) :
    (cleanupTick reg now).1 =
      (reg.map fun p => (p.1, p.2.filter fun c => !(30000 < now - c.lastPing))).filter
        (fun p => !p.2.isEmpty) := rfl

theorem noEmpty_cleanupTick (reg : Registry) (now : Nat) :
    noEmptyRooms (cleanupTick reg now).1 = true := by
  rw [cleanupTick_fst]
  simp only [noEmptyRooms, List.all_eq_true]
  intro p hp
  exact (List.mem_filter.mp hp).2

theorem lookup_cleanup_aux {key : String} (now : Nat) :
    ∀ {reg : Registry}, key ∉ reg.map Prod.fst →
    lookupRoom ((reg.map fun p => (p.1, p.2.filter fun c => !(30000 < now - c.lastPing))).filter
      (fun p => !p.2.isEmpty)) key = none := by
  intro reg
  induction reg with
  | nil => intro _; rfl
  | cons p rest ih =>
    intro h
    obtain ⟨k, v⟩ := p
    simp only [List.map_cons, List.mem_cons, not_or] at h
    obtain ⟨hne, hrest⟩ := h
    simp only [List.map_cons, List.filter_cons]
    split
    · simp only [lookupRoom]
      rw [if_neg (fun he => hne he.symm)]
      exact ih hrest
    · exact ih hrest

theorem lookup_cleanupTick {reg : Registry} (now : Nat)
    (hkeys : (reg.map Prod.fst).Nodup) {key : String} {l : List RoomClient}
    (h : lookupRoom reg key = some l) :
    lookupRoom (cleanupTick reg now).1 key =
      (if (l.filter fun c => !(30000 < now - c.lastPing)).isEmpty then none
       else some (l.filter fun c => !(30000 < now - c.lastPing))) := by
  rw [cleanupTick_fst]
  induction reg with
  | nil => cases h
  | cons p rest ih =>
    obtain ⟨k, v⟩ := p
    rw [List.map_cons, List.nodup_cons] at hkeys
    obtain ⟨hk, hrest⟩ := hkeys
    by_cases hkey : k = key
    · subst hkey
      simp only [lookupRoom, if_pos rfl] at h
      injection h with h
      simp only [List.map_cons, List.filter_cons]
      rw [h]
      by_cases hemp : (l.filter fun c => !(30000 < now - c.lastPing)).isEmpty = true
      · simp only [hemp, Bool.not_true, Bool.false_eq_true, if_false, if_true]
        exact lookup_cleanup_aux now hk
      · simp only [Bool.not_eq_true] at hemp
        simp only [hemp, Bool.not_false, if_true, Bool.false_eq_true, if_false, lookupRoom]
    · simp only [lookupRoom] at h
      rw [if_neg hkey] at h
      simp only [List.map_cons, List.filter_cons]
      split
      · simp only [lookupRoom]
        rw [if_neg hkey]
        exact ih hrest h
      · exact ih hrest h

/-! ### Branch lemmas for the message handler -/

theorem onMessage_eq {reg : Registry} {roomInfo : String} {clients : List RoomClient}
    (h : lookupRoom reg roomInfo = some clients) (now : Nat) (sender : RoomClient)
    (bytes : List Nat) (parsed : Option Json) :
    onMessage reg roomInfo now sender bytes parsed =
      relayFrame now clients sender bytes parsed := by
  simp [onMessage, h]

theorem relayFrame_binary {bytes : List Nat} (h : isJsonSniff bytes = false)
    (now : Nat) (clients : List RoomClient) (sender : RoomClient) (parsed : Option Json) :
    relayFrame now clients sender bytes parsed =
      ({ sender with lastPing := now },
       loopSends clients (othersGuard sender.userId) (OutMsg.raw bytes)) := by
  simp [relayFrame, h]

theorem relayFrame_parseFail {bytes : List Nat} (h : isJsonSniff bytes = true)
    (now : Nat) (clients : List RoomClient) (sender : RoomClient) :
    relayFrame now clients sender bytes none = (sender, []) := by
  simp [relayFrame, h]

theorem relayFrame_cursor {bytes : List Nat} {j : Json} (h : isJsonSniff bytes = true)
    (ht : j.getField "type" = some (Json.str "cursor-position"))
    (now : Nat) (clients : List RoomClient) (sender : RoomClient) :
    relayFrame now clients sender bytes (some j) =
      ({ sender with lastPing := now, cursor := j.getField "cursor" },
       loopSends clients (othersGuard sender.userId)
         (OutMsg.cursorUpdate sender.userId (j.getField "cursor")
           sender.username sender.color)) := by
  simp [relayFrame, h, ht]

theorem relayFrame_board {bytes : List Nat} {j : Json} (h : isJsonSniff bytes = true)
    (ht : j.getField "type" = some (Json.str "board-update"))
    (now : Nat) (clients : List RoomClient) (sender : RoomClient) :
    relayFrame now clients sender bytes (some j) =
      ({ sender with lastPing := now },
       loopSends clients (othersGuard sender.userId) (OutMsg.raw bytes)) := by
  simp [relayFrame, h, ht]

theorem relayFrame_invite {bytes : List Nat} {j : Json} (h : isJsonSniff bytes = true)
    (ht : j.getField "type" = some (Json.str "invitation-response"))
    (now : Nat) (clients : List RoomClient) (sender : RoomClient) :
    relayFrame now clients sender bytes (some j) =
      ({ sender with lastPing := now },
       loopSends clients (inviterGuard (j.getField "inviterId")) (OutMsg.raw bytes)) := by
  simp [relayFrame, h, ht]

/-- The case that distinguishes JavaScript `trim` from an ASCII-only
trim: a frame of NBSP (UTF-8 `C2 A0`) followed by the opening brace is
sniffed as JSON, because `trim` strips Unicode whitespace. -/
theorem isJsonSniff_nbsp_brace : isJsonSniff [0xc2, 0xa0, 0x7b] = true := rfl

/-- Consequently, when that frame fails to parse (NBSP is not JSON
whitespace, so `JSON.parse` throws on it), the handler discards it with
no sends and no `lastPing` refresh. -/
theorem relayFrame_nbsp_discard (now : Nat) (clients : List RoomClient)
    (sender : RoomClient) :
    relayFrame now clients sender [0xc2, 0xa0, 0x7b] none = (sender, []) :=
  relayFrame_parseFail isJsonSniff_nbsp_brace now clients sender

theorem relayFrame_lastPing_parsed {bytes : List Nat} (j : Json)
    (h : isJsonSniff bytes = true) (now : Nat) (clients : List RoomClient)
    (sender : RoomClient) :
    (relayFrame now clients sender bytes (some j)).1.lastPing = now := by
  rcases hj : j.getField "type" with _ | v
  · simp [relayFrame, h, hj]
  · cases v <;> simp [relayFrame, h, hj]
    case str t => split_ifs <;> rfl

/-! ### Claim C1 -/

/-- C1 (amended).  For every inbound frame whose first non-whitespace
character (of its UTF-8 decoding, with whitespace as `trim` strips it,
Unicode spaces included) is not an opening brace or bracket, the relay
forwards the frame byte-for-byte unchanged (`OutMsg.raw bytes`, i.e.
`ws.send(message)`) to exactly the sessions in the room whose connection
is open and whose `userId` differs from the sender's — in particular
never back to the sender, nor to any other session of the sender's user;
a payload whose first non-whitespace character *is* an opening brace or
bracket and which fails to parse as JSON is silently discarded
(forwarded to no one).  The original claim — that *every* other open
session receives it for *any* binary payload, including brace-prefixed
ones — fails on both counts; see the counterexample. -/
theorem claim_C1 {reg : Registry} {roomInfo : String} {clients : List RoomClient}
    (hroom : lookupRoom reg roomInfo = some clients)
    (hnodup : (clients.map RoomClient.clientId).Nodup)
    (sender : RoomClient) (now : Nat) (bytes : List Nat) (parsed : Option Json)
    (hbin : isJsonSniff bytes = false) :
    (∀ c ∈ clients,
        (Send.mk c.clientId (OutMsg.raw bytes) ∈
            (onMessage reg roomInfo now sender bytes parsed).2 ↔
          (c.userId ≠ sender.userId ∧ c.wsOpen = true)))
    ∧ (∀ sd ∈ (onMessage reg roomInfo now sender bytes parsed).2,
        sd.payload = OutMsg.raw bytes)
    ∧ (∀ sd ∈ (onMessage reg roomInfo now sender bytes parsed).2, ∀ c ∈ clients,
        sd.recipient = c.clientId → c.userId ≠ sender.userId)
    ∧ (∀ bytes' : List Nat, isJsonSniff bytes' = true →
        onMessage reg roomInfo now sender bytes' none = (sender, [])) := by
  rw [onMessage_eq hroom, relayFrame_binary hbin]
  refine ⟨fun c hc => ⟨fun hmem => ?_, fun ⟨h1, h2⟩ => ?_⟩, fun sd hsd => ?_,
    fun sd hsd c hc hrec => ?_, fun bytes' hb' => ?_⟩
  · obtain ⟨c', hc', hg, he⟩ := of_mem_loopSends hmem
    have hid : c'.clientId = c.clientId := (congrArg Send.recipient he).symm
    have hcc : c' = c := List.inj_on_of_nodup_map hnodup hc' hc hid
    subst hcc
    simp only [othersGuard, Bool.and_eq_true, bne_iff_ne, ne_eq] at hg
    exact ⟨hg.1, hg.2⟩
  · exact mem_loopSends hc (by simp [othersGuard, h1, h2]) _
  · obtain ⟨c', _, _, he⟩ := of_mem_loopSends hsd
    rw [he]
  · obtain ⟨c', hc', hg, he⟩ := of_mem_loopSends hsd
    rw [he] at hrec
    have hcc : c' = c := List.inj_on_of_nodup_map hnodup hc' hc hrec
    subst hcc
    simp only [othersGuard, Bool.and_eq_true, bne_iff_ne, ne_eq] at hg
    exact hg.1
  · rw [onMessage_eq hroom, relayFrame_parseFail hb']

/-- Witness for C1: in a room `board:b` with sender `u` (id 1) and peer `v`
(id 2, open), the binary frame `[7, 8]` is delivered to the peer. -/
theorem claim_C1_witness :
    Send.mk 2 (OutMsg.raw [7, 8]) ∈
      (onMessage
        [("board:b", [RoomClient.mk 1 "u" 0 "A" none "#2563eb" true,
                      RoomClient.mk 2 "v" 0 "B" none "#059669" true])]
        "board:b" 5 (RoomClient.mk 1 "u" 0 "A" none "#2563eb" true) [7, 8] none).2 := by
  have h := @claim_C1
    [("board:b", [RoomClient.mk 1 "u" 0 "A" none "#2563eb" true,
                  RoomClient.mk 2 "v" 0 "B" none "#059669" true])]
    "board:b"
    [RoomClient.mk 1 "u" 0 "A" none "#2563eb" true,
     RoomClient.mk 2 "v" 0 "B" none "#059669" true]
    rfl (by decide) (RoomClient.mk 1 "u" 0 "A" none "#2563eb" true) 5 [7, 8] none rfl
  exact (h.1 (RoomClient.mk 2 "v" 0 "B" none "#059669" true)
    (List.mem_cons_of_mem _ (List.mem_cons_self _ _))).mpr (by decide)

/-- Counterexample to C1 as stated.  Room `board:b` holds sender `u1`
(id 1) and peer `u2` (id 2, open).  The sender sends the binary frame
`[123, 120]` (the bytes of `"\x7bx"`, whose first byte is the opening
brace and which is not valid JSON, so `JSON.parse` throws and the parse
oracle is `none`).  The claim requires the frame to be forwarded to the
peer; the handler in fact sends nothing at all. -/
theorem claim_C1_counterexample :
    (onMessage
      [("board:b", [RoomClient.mk 1 "u1" 0 "A" none "#2563eb" true,
                    RoomClient.mk 2 "u2" 0 "B" none "#059669" true])]
      "board:b" 5 (RoomClient.mk 1 "u1" 0 "A" none "#2563eb" true)
      [123, 120] none).2 = [] := rfl

/-! ### Claim C2 -/

/-- C2 (amended).  Every inbound frame from an admitted session that is
classified binary (first non-whitespace character of the decoded payload
not a brace/bracket), and every frame that parses as JSON — recognized or
unrecognized `type` alike — refreshes the sender's `lastPing`; but a
frame sniffed as JSON whose `JSON.parse` throws is discarded *without*
refreshing `lastPing` (the refresh sits after the parse in the source),
leaving the sender's state entirely unchanged and sending nothing.  In
all cases the handler closes no connection and mutates no room
membership (its only effects are the returned sender-field updates and
sends). -/
theorem claim_C2 {reg : Registry} {roomInfo : String} {clients : List RoomClient}
    (hroom : lookupRoom reg roomInfo = some clients)
    (sender : RoomClient) (now : Nat) (bytes : List Nat) (parsed : Option Json) :
    (isJsonSniff bytes = false →
      (onMessage reg roomInfo now sender bytes parsed).1.lastPing = now)
    ∧ (∀ j, parsed = some j →
      (onMessage reg roomInfo now sender bytes parsed).1.lastPing = now)
    ∧ (isJsonSniff bytes = true → parsed = none →
      onMessage reg roomInfo now sender bytes parsed = (sender, [])) := by
  refine ⟨fun hb => ?_, fun j hj => ?_, fun hb hp => ?_⟩
  · rw [onMessage_eq hroom, relayFrame_binary hb]
  · subst hj
    rw [onMessage_eq hroom]
    by_cases hb : isJsonSniff bytes = true
    · exact relayFrame_lastPing_parsed j hb now clients sender
    · rw [relayFrame_binary (Bool.not_eq_true _ ▸ hb)]
  · subst hp
    rw [onMessage_eq hroom, relayFrame_parseFail hb]

/-- Witness for C2: a binary frame (`[7]`) and a parsed JSON frame of
unrecognized type both refresh `lastPing` to the current time, and a
brace-prefixed unparseable frame leaves the session untouched. -/
theorem claim_C2_witness :
    (onMessage [("board:b", [RoomClient.mk 1 "u" 0 "A" none "#2563eb" true])]
      "board:b" 42 (RoomClient.mk 1 "u" 0 "A" none "#2563eb" true) [7] none).1.lastPing = 42 := by
  have h := @claim_C2
    [("board:b", [RoomClient.mk 1 "u" 0 "A" none "#2563eb" true])]
    "board:b"
    [RoomClient.mk 1 "u" 0 "A" none "#2563eb" true]
    rfl (RoomClient.mk 1 "u" 0 "A" none "#2563eb" true) 42 [7] none
  exact h.1 rfl

/-- Counterexample to C2 as stated.  The session's `lastPing` is `0`; at
time `99` it sends the frame `[123, 121]` (the bytes of `"\x7by"`, sniffed
as JSON, unparseable, so the parse oracle is `none`).  The claim requires
the liveness timestamp to be refreshed to `99`; the handler leaves the
session exactly as it was, `lastPing = 0` included. -/
theorem claim_C2_counterexample :
    (onMessage [("board:b", [RoomClient.mk 1 "u" 0 "A" none "#2563eb" true])]
      "board:b" 99 (RoomClient.mk 1 "u" 0 "A" none "#2563eb" true)
      [123, 121] none) = (RoomClient.mk 1 "u" 0 "A" none "#2563eb" true, []) := rfl

/-! ### Claim C7 -/

/-- C7 (confirmed).  A control frame of type `invitation-response` is
delivered (as the original bytes) exactly to the open sessions in the room
whose `userId` equals the payload's `inviterId` — so when a single session
carries that `userId` it alone receives the frame, once — and no session
with any other `userId` receives anything; nothing else is broadcast. -/
theorem claim_C7 {reg : Registry} {roomInfo : String} {clients : List RoomClient}
    (hroom : lookupRoom reg roomInfo = some clients)
    (hnodup : (clients.map RoomClient.clientId).Nodup)
    (sender : RoomClient) (now : Nat) (bytes : List Nat) {j : Json} {iid : String}
    (hsniff : isJsonSniff bytes = true)
    (ht : j.getField "type" = some (Json.str "invitation-response"))
    (hiid : j.getField "inviterId" = some (Json.str iid)) :
    (∀ c ∈ clients, c.userId = iid → c.wsOpen = true →
        sendsTo (onMessage reg roomInfo now sender bytes (some j)).2 c.clientId =
          [Send.mk c.clientId (OutMsg.raw bytes)])
    ∧ (∀ c ∈ clients, c.userId ≠ iid →
        sendsTo (onMessage reg roomInfo now sender bytes (some j)).2 c.clientId = [])
    ∧ (∀ sd ∈ (onMessage reg roomInfo now sender bytes (some j)).2,
        sd.payload = OutMsg.raw bytes) := by
  rw [onMessage_eq hroom, relayFrame_invite hsniff ht]
  refine ⟨fun c hc h1 h2 => ?_, fun c hc h1 => ?_, fun sd hsd => ?_⟩
  · rw [sendsTo_loopSends hnodup hc]
    simp [inviterGuard, hiid, h1, h2]
  · rw [sendsTo_loopSends hnodup hc]
    simp [inviterGuard, hiid, beq_iff_eq, h1]
  · obtain ⟨c', _, _, he⟩ := of_mem_loopSends hsd
    rw [he]

/-- Witness for C7: in a room holding the inviter `w` (id 1, open), the
sender `u` (id 2) and a bystander `v` (id 3, open), the frame
`{"type":"invitation-response","inviterId":"w"}` (given as its UTF-8
bytes, with its parse as the oracle) reaches exactly the inviter. -/
theorem claim_C7_witness :
    sendsTo (onMessage
        [("board:b", [RoomClient.mk 1 "w" 0 "W" none "#2563eb" true,
                      RoomClient.mk 2 "u" 0 "U" none "#059669" true,
                      RoomClient.mk 3 "v" 0 "V" none "#d97706" true])]
        "board:b" 5 (RoomClient.mk 2 "u" 0 "U" none "#059669" true)
        [123, 34, 116, 121, 112, 101, 34, 58, 34, 105, 110, 118, 105, 116, 97,
         116, 105, 111, 110, 45, 114, 101, 115, 112, 111, 110, 115, 101, 34, 44,
         34, 105, 110, 118, 105, 116, 101, 114, 73, 100, 34, 58, 34, 119, 34, 125]
        (some (Json.obj [("type", Json.str "invitation-response"),
                         ("inviterId", Json.str "w")]))).2 1 =
      [Send.mk 1 (OutMsg.raw
        [123, 34, 116, 121, 112, 101, 34, 58, 34, 105, 110, 118, 105, 116, 97,
         116, 105, 111, 110, 45, 114, 101, 115, 112, 111, 110, 115, 101, 34, 44,
         34, 105, 110, 118, 105, 116, 101, 114, 73, 100, 34, 58, 34, 119, 34, 125])] := by
  have h := @claim_C7
    [("board:b", [RoomClient.mk 1 "w" 0 "W" none "#2563eb" true,
                  RoomClient.mk 2 "u" 0 "U" none "#059669" true,
                  RoomClient.mk 3 "v" 0 "V" none "#d97706" true])]
    "board:b"
    [RoomClient.mk 1 "w" 0 "W" none "#2563eb" true,
     RoomClient.mk 2 "u" 0 "U" none "#059669" true,
     RoomClient.mk 3 "v" 0 "V" none "#d97706" true]
    rfl (by decide) (RoomClient.mk 2 "u" 0 "U" none "#059669" true) 5
    [123, 34, 116, 121, 112, 101, 34, 58, 34, 105, 110, 118, 105, 116, 97,
     116, 105, 111, 110, 45, 114, 101, 115, 112, 111, 110, 115, 101, 34, 44,
     34, 105, 110, 118, 105, 116, 101, 114, 73, 100, 34, 58, 34, 119, 34, 125]
    (Json.obj [("type", Json.str "invitation-response"),
               ("inviterId", Json.str "w")])
    "w" rfl rfl rfl
  exact h.1 (RoomClient.mk 1 "w" 0 "W" none "#2563eb" true)
    (List.mem_cons_self _ _) rfl rfl

/-! ### Claim C8 -/

/-- C8 (amended).  A `cursor-position` control frame sets the sender's
session `cursor` field to the payload's `cursor` value (JSON `null` or an
absent field are stored as such, clearing the previous value) and
refreshes `lastPing`; every open session in the room whose `userId`
differs from the sender's receives exactly one
`cursor-update` event carrying the sender's `userId`, the new cursor, the
sender's display name (`username`) and color; and no session whose
`userId` equals the sender's — the sender itself included — receives
anything.  The original claim's "every other open session" fails when the
sender's user has a second concurrent session: exclusion is by `userId`,
not by session identity (see the counterexample). -/
theorem claim_C8 {reg : Registry} {roomInfo : String} {clients : List RoomClient}
    (hroom : lookupRoom reg roomInfo = some clients)
    (hnodup : (clients.map RoomClient.clientId).Nodup)
    (sender : RoomClient) (now : Nat) (bytes : List Nat) {j : Json}
    (hsniff : isJsonSniff bytes = true)
    (ht : j.getField "type" = some (Json.str "cursor-position")) :
    ((onMessage reg roomInfo now sender bytes (some j)).1 =
        { sender with lastPing := now, cursor := j.getField "cursor" })
    ∧ (∀ c ∈ clients, c.userId ≠ sender.userId → c.wsOpen = true →
        sendsTo (onMessage reg roomInfo now sender bytes (some j)).2 c.clientId =
          [Send.mk c.clientId (OutMsg.cursorUpdate sender.userId (j.getField "cursor")
            sender.username sender.color)])
    ∧ (∀ c ∈ clients, c.userId = sender.userId →
        sendsTo (onMessage reg roomInfo now sender bytes (some j)).2 c.clientId = []) := by
  rw [onMessage_eq hroom, relayFrame_cursor hsniff ht]
  refine ⟨rfl, fun c hc h1 h2 => ?_, fun c hc h1 => ?_⟩
  · rw [sendsTo_loopSends hnodup hc]
    simp [othersGuard, bne_iff_ne, h1, h2]
  · rw [sendsTo_loopSends hnodup hc]
    simp [othersGuard, h1]

/-- Witness for C8: room with sender `u` (id 1) and peer `v` (id 2, open);
the frame `{"type":"cursor-position","cursor":null}` (UTF-8 bytes plus its
parse) clears the sender's cursor and delivers exactly one `cursor-update`
to the peer. -/
theorem claim_C8_witness :
    ((onMessage
        [("board:b", [RoomClient.mk 1 "u" 0 "A" (some (Json.obj [("x", Json.num 1)])) "#2563eb" true,
                      RoomClient.mk 2 "v" 0 "B" none "#059669" true])]
        "board:b" 7 (RoomClient.mk 1 "u" 0 "A" (some (Json.obj [("x", Json.num 1)])) "#2563eb" true)
        [123, 34, 116, 121, 112, 101, 34, 58, 34, 99, 117, 114, 115, 111, 114,
         45, 112, 111, 115, 105, 116, 105, 111, 110, 34, 44, 34, 99, 117, 114,
         115, 111, 114, 34, 58, 110, 117, 108, 108, 125]
        (some (Json.obj [("type", Json.str "cursor-position"),
                         ("cursor", Json.null)]))).1 =
      RoomClient.mk 1 "u" 7 "A" (some Json.null) "#2563eb" true)
    ∧ sendsTo (onMessage
        [("board:b", [RoomClient.mk 1 "u" 0 "A" (some (Json.obj [("x", Json.num 1)])) "#2563eb" true,
                      RoomClient.mk 2 "v" 0 "B" none "#059669" true])]
        "board:b" 7 (RoomClient.mk 1 "u" 0 "A" (some (Json.obj [("x", Json.num 1)])) "#2563eb" true)
        [123, 34, 116, 121, 112, 101, 34, 58, 34, 99, 117, 114, 115, 111, 114,
         45, 112, 111, 115, 105, 116, 105, 111, 110, 34, 44, 34, 99, 117, 114,
         115, 111, 114, 34, 58, 110, 117, 108, 108, 125]
        (some (Json.obj [("type", Json.str "cursor-position"),
                         ("cursor", Json.null)]))).2 2 =
      [Send.mk 2 (OutMsg.cursorUpdate "u" (some Json.null) "A" "#2563eb")] := by
  have h := @claim_C8
    [("board:b", [RoomClient.mk 1 "u" 0 "A" (some (Json.obj [("x", Json.num 1)])) "#2563eb" true,
                  RoomClient.mk 2 "v" 0 "B" none "#059669" true])]
    "board:b"
    [RoomClient.mk 1 "u" 0 "A" (some (Json.obj [("x", Json.num 1)])) "#2563eb" true,
     RoomClient.mk 2 "v" 0 "B" none "#059669" true]
    rfl (by decide)
    (RoomClient.mk 1 "u" 0 "A" (some (Json.obj [("x", Json.num 1)])) "#2563eb" true) 7
    [123, 34, 116, 121, 112, 101, 34, 58, 34, 99, 117, 114, 115, 111, 114,
     45, 112, 111, 115, 105, 116, 105, 111, 110, 34, 44, 34, 99, 117, 114,
     115, 111, 114, 34, 58, 110, 117, 108, 108, 125]
    (Json.obj [("type", Json.str "cursor-position"), ("cursor", Json.null)])
    rfl rfl
  refine ⟨h.1, ?_⟩
  exact h.2.1 (RoomClient.mk 2 "v" 0 "B" none "#059669" true)
    (List.mem_cons_of_mem _ (List.mem_cons_self _ _)) (by decide) rfl

/-- Counterexample to C8 as stated.  The sender's user `u` has two open
sessions (ids 1 and 2); a bystander `v` (id 3) is also in the room.
Session 1 sends `{"type":"cursor-position","cursor":null}`.  The claim
requires *every* other open session — session 2 included — to receive the
`cursor-update`; in fact only the bystander receives it, because the loop
excludes by `userId`. -/
theorem claim_C8_counterexample :
    (onMessage
      [("board:b", [RoomClient.mk 1 "u" 0 "A" none "#2563eb" true,
                    RoomClient.mk 2 "u" 0 "A2" none "#d97706" true,
                    RoomClient.mk 3 "v" 0 "B" none "#059669" true])]
      "board:b" 7 (RoomClient.mk 1 "u" 0 "A" none "#2563eb" true)
      [123, 34, 116, 121, 112, 101, 34, 58, 34, 99, 117, 114, 115, 111, 114,
       45, 112, 111, 115, 105, 116, 105, 111, 110, 34, 44, 34, 99, 117, 114,
       115, 111, 114, 34, 58, 110, 117, 108, 108, 125]
      (some (Json.obj [("type", Json.str "cursor-position"),
                       ("cursor", Json.null)]))).2 =
      [Send.mk 3 (OutMsg.cursorUpdate "u" (some Json.null) "A" "#2563eb")] := rfl

/-! ### Helper lemmas about the close handler -/

theorem mem_isEmpty_false {α : Type} {l : List α} {x : α} (hx : x ∈ l) :
    l.isEmpty = false := by
  rw [← Bool.not_eq_true, List.isEmpty_iff]
  intro h
  rw [h] at hx
  cases hx

theorem closeHandler_snd {reg : Registry} {roomInfo : String} {clients : List RoomClient}
    (h : lookupRoom reg roomInfo = some clients) (rc : RoomClient) :
    (closeHandler reg roomInfo rc).2 =
      loopSends clients (othersGuard rc.userId) (OutMsg.userLeft rc.userId) := by
  simp only [closeHandler, h]
  split <;> rfl

theorem any_filter_ne (clients : List RoomClient) (x : Nat) :
    ((clients.filter fun c => c.clientId != x).any fun c => c.clientId == x) = false := by
  rw [← Bool.not_eq_true, List.any_eq_true]
  rintro ⟨c, hc, he⟩
  have h1 := (List.mem_filter.mp hc).2
  rw [beq_iff_eq] at he
  rw [he] at h1
  simp at h1

theorem closeHandler_memberOf_self {reg : Registry} {roomInfo : String}
    {clients : List RoomClient} (h : lookupRoom reg roomInfo = some clients)
    (rc : RoomClient) :
    memberOf (closeHandler reg roomInfo rc).1 roomInfo rc.clientId = false := by
  simp only [closeHandler, h]
  split
  · simp [memberOf, lookup_removeRoom_self]
  · simp only [memberOf, lookup_setRoom_self]
    exact any_filter_ne clients rc.clientId

theorem closeHandler_memberOf_other {reg : Registry} {roomInfo : String}
    {clients : List RoomClient} (h : lookupRoom reg roomInfo = some clients)
    {rc x : RoomClient} (hx : x ∈ clients) (hne : x.clientId ≠ rc.clientId) :
    memberOf (closeHandler reg roomInfo rc).1 roomInfo x.clientId = true := by
  have hxf : x ∈ clients.filter fun c => c.clientId != rc.clientId :=
    List.mem_filter.mpr ⟨hx, by simpa [bne_iff_ne] using hne⟩
  simp only [closeHandler, h]
  split
  · next hemp =>
      rw [List.isEmpty_iff] at hemp
      rw [hemp] at hxf
      cases hxf
  · simp only [memberOf, lookup_setRoom_self]
    rw [List.any_eq_true]
    exact ⟨x, hxf, by simp⟩

/-! ### Claim C5 -/

/-- C5 (confirmed).  The broadcast loop guards each delivery with
`readyState === OPEN` and calls the `ws` library's `send`, which on an
open socket buffers the frame and never throws synchronously: a write
failure surfaces asynchronously as an error on the *failing recipient's
own* socket, which the library then destroys, firing that socket's
`close` event.  Accordingly: (1) whether other deliveries fail is
irrelevant to a given recipient — any qualifying recipient whose own
write succeeds (`writeOk`) receives the frame; (2) the failing
recipient's close path removes exactly it from the room; (3) every other
session — the sender included — stays in the room; (4) surviving open
peers of a different user receive exactly one `user-left` for the evicted
recipient. -/
theorem claim_C5 {reg : Registry} {roomInfo : String} {clients : List RoomClient}
    (hroom : lookupRoom reg roomInfo = some clients)
    (hnodup : (clients.map RoomClient.clientId).Nodup)
    (sender : RoomClient) (now : Nat) (bytes : List Nat) (parsed : Option Json)
    (hbin : isJsonSniff bytes = false) :
    (∀ (writeOk : Nat → Bool), ∀ r ∈ clients, r.userId ≠ sender.userId →
        r.wsOpen = true → writeOk r.clientId = true →
        Send.mk r.clientId (OutMsg.raw bytes) ∈
          ((onMessage reg roomInfo now sender bytes parsed).2.filter
            fun sd => writeOk sd.recipient))
    ∧ (∀ f : RoomClient,
        memberOf (closeHandler reg roomInfo f).1 roomInfo f.clientId = false)
    ∧ (∀ f : RoomClient, ∀ x ∈ clients, x.clientId ≠ f.clientId →
        memberOf (closeHandler reg roomInfo f).1 roomInfo x.clientId = true)
    ∧ (∀ f : RoomClient, ∀ r ∈ clients, r.userId ≠ f.userId → r.wsOpen = true →
        sendsTo (closeHandler reg roomInfo f).2 r.clientId =
          [Send.mk r.clientId (OutMsg.userLeft f.userId)]) := by
  refine ⟨fun writeOk r hr h1 h2 hok => ?_, fun f => closeHandler_memberOf_self hroom f,
    fun f x hx hne => closeHandler_memberOf_other hroom hx hne,
    fun f r hr h1 h2 => ?_⟩
  · rw [onMessage_eq hroom, relayFrame_binary hbin]
    refine List.mem_filter.mpr ⟨?_, by simpa using hok⟩
    exact mem_loopSends hr (by simp [othersGuard, bne_iff_ne, h1, h2]) _
  · rw [closeHandler_snd hroom, sendsTo_loopSends hnodup hr]
    simp [othersGuard, bne_iff_ne, h1, h2]

/-- Witness for C5: room `[u(id 1, sender), v(id 2, failing), w(id 3)]`,
all open.  With the write to id 2 failing (`writeOk n = (n != 2)`), id 3
still receives the binary frame `[9]`; tearing down id 2 removes exactly
it, keeps ids 1 and 3 in the room, and notifies id 3 once. -/
theorem claim_C5_witness :
    (Send.mk 3 (OutMsg.raw [9]) ∈
      ((onMessage
          [("board:b", [RoomClient.mk 1 "u" 0 "U" none "#2563eb" true,
                        RoomClient.mk 2 "v" 0 "V" none "#059669" true,
                        RoomClient.mk 3 "w" 0 "W" none "#d97706" true])]
          "board:b" 5 (RoomClient.mk 1 "u" 0 "U" none "#2563eb" true) [9] none).2.filter
        fun sd => sd.recipient != 2))
    ∧ memberOf (closeHandler
        [("board:b", [RoomClient.mk 1 "u" 0 "U" none "#2563eb" true,
                      RoomClient.mk 2 "v" 0 "V" none "#059669" true,
                      RoomClient.mk 3 "w" 0 "W" none "#d97706" true])]
        "board:b" (RoomClient.mk 2 "v" 0 "V" none "#059669" true)).1 "board:b" 2 = false
    ∧ memberOf (closeHandler
        [("board:b", [RoomClient.mk 1 "u" 0 "U" none "#2563eb" true,
                      RoomClient.mk 2 "v" 0 "V" none "#059669" true,
                      RoomClient.mk 3 "w" 0 "W" none "#d97706" true])]
        "board:b" (RoomClient.mk 2 "v" 0 "V" none "#059669" true)).1 "board:b" 1 = true
    ∧ sendsTo (closeHandler
        [("board:b", [RoomClient.mk 1 "u" 0 "U" none "#2563eb" true,
                      RoomClient.mk 2 "v" 0 "V" none "#059669" true,
                      RoomClient.mk 3 "w" 0 "W" none "#d97706" true])]
        "board:b" (RoomClient.mk 2 "v" 0 "V" none "#059669" true)).2 3 =
      [Send.mk 3 (OutMsg.userLeft "v")] := by
  have h := @claim_C5
    [("board:b", [RoomClient.mk 1 "u" 0 "U" none "#2563eb" true,
                  RoomClient.mk 2 "v" 0 "V" none "#059669" true,
                  RoomClient.mk 3 "w" 0 "W" none "#d97706" true])]
    "board:b"
    [RoomClient.mk 1 "u" 0 "U" none "#2563eb" true,
     RoomClient.mk 2 "v" 0 "V" none "#059669" true,
     RoomClient.mk 3 "w" 0 "W" none "#d97706" true]
    rfl (by decide) (RoomClient.mk 1 "u" 0 "U" none "#2563eb" true) 5 [9] none rfl
  refine ⟨?_, ?_, ?_, ?_⟩
  · exact h.1 (fun n => n != 2) (RoomClient.mk 3 "w" 0 "W" none "#d97706" true)
      (List.mem_cons_of_mem _ (List.mem_cons_of_mem _ (List.mem_cons_self _ _)))
      (by decide) rfl rfl
  · exact h.2.1 (RoomClient.mk 2 "v" 0 "V" none "#059669" true)
  · exact h.2.2.1 (RoomClient.mk 2 "v" 0 "V" none "#059669" true)
      (RoomClient.mk 1 "u" 0 "U" none "#2563eb" true)
      (List.mem_cons_self _ _) (by decide)
  · exact h.2.2.2 (RoomClient.mk 2 "v" 0 "V" none "#059669" true)
      (RoomClient.mk 3 "w" 0 "W" none "#d97706" true)
      (List.mem_cons_of_mem _ (List.mem_cons_of_mem _ (List.mem_cons_self _ _)))
      (by decide) rfl

/-! ### Claim C6 -/

/-- C6 (confirmed).  Every operation that can empty a room's session set
deletes the room entry on the spot: the `close` handler and the cleanup
tick preserve (indeed the tick re-establishes unconditionally) the
no-empty-rooms invariant; when the last session closes, the board's
mapping is gone; and a join on a board with no mapping creates a fresh
room holding exactly the new session. -/
theorem claim_C6 :
    (∀ reg : Registry, noEmptyRooms reg = true → ∀ (ri : String) (rc : RoomClient),
        noEmptyRooms (closeHandler reg ri rc).1 = true)
    ∧ (∀ (reg : Registry) (now : Nat), noEmptyRooms (cleanupTick reg now).1 = true)
    ∧ (∀ reg : Registry, noEmptyRooms reg = true → ∀ (ri : String) (c : RoomClient),
        noEmptyRooms (joinRoom reg ri c) = true)
    ∧ (∀ (reg : Registry) (ri : String) (s : RoomClient),
        lookupRoom reg ri = some [s] → lookupRoom (closeHandler reg ri s).1 ri = none)
    ∧ (∀ (reg : Registry) (ri : String) (c : RoomClient),
        lookupRoom reg ri = none → lookupRoom (joinRoom reg ri c) ri = some [c]) := by
  refine ⟨fun reg h ri rc => noEmpty_closeHandler h ri rc,
    fun reg now => noEmpty_cleanupTick reg now,
    fun reg h ri c => noEmpty_joinRoom h ri c,
    fun reg ri s h => ?_, fun reg ri c h => ?_⟩
  · simp [closeHandler, h, lookup_removeRoom_self]
  · rw [lookup_joinRoom, h]
    rfl

/-- Witness for C6: a concrete two-room registry stays empty-room-free
under close, tick and join; closing the last session of `board:a` removes
its mapping; a join for the unmapped `board:c` yields exactly the new
session. -/
theorem claim_C6_witness :
    noEmptyRooms (closeHandler
      [("board:a", [RoomClient.mk 1 "u" 0 "U" none "#2563eb" true]),
       ("board:b", [RoomClient.mk 2 "v" 0 "V" none "#059669" true])]
      "board:a" (RoomClient.mk 1 "u" 0 "U" none "#2563eb" true)).1 = true
    ∧ noEmptyRooms (cleanupTick
        [("board:a", [RoomClient.mk 1 "u" 0 "U" none "#2563eb" true])] 40001).1 = true
    ∧ noEmptyRooms (joinRoom
        [("board:a", [RoomClient.mk 1 "u" 0 "U" none "#2563eb" true])]
        "board:c" (RoomClient.mk 3 "w" 0 "W" none "#d97706" true)) = true
    ∧ lookupRoom (closeHandler
        [("board:a", [RoomClient.mk 1 "u" 0 "U" none "#2563eb" true]),
         ("board:b", [RoomClient.mk 2 "v" 0 "V" none "#059669" true])]
        "board:a" (RoomClient.mk 1 "u" 0 "U" none "#2563eb" true)).1 "board:a" = none
    ∧ lookupRoom (joinRoom
        [("board:a", [RoomClient.mk 1 "u" 0 "U" none "#2563eb" true])]
        "board:c" (RoomClient.mk 3 "w" 0 "W" none "#d97706" true)) "board:c" =
      some [RoomClient.mk 3 "w" 0 "W" none "#d97706" true] := by
  refine ⟨claim_C6.1 _ (by decide) _ _, claim_C6.2.1 _ _, claim_C6.2.2.1 _ (by decide) _ _,
    claim_C6.2.2.2.1 _ _ _ rfl, ?_⟩
  exact claim_C6.2.2.2.2 _ _ _ rfl

/-! ### Claim C9 -/

/-- C9 (confirmed).  The `ws` transport fires the `close` event exactly
once per socket, and the only `user-left` broadcast in the program sits in
that event's handler; the cleanup tick closes an overdue socket and
removes it from the set but sends nothing (its return carries no sends,
mirroring the absence of any broadcast at source lines 156-170).  Hence on
the voluntary/error path (the close event alone) and on the eviction path
racing the close event (a cleanup tick first, then the one close event),
each remaining open peer of a different user receives exactly one
`user-left` for the departing session — never zero, never two — the
departing session ends up removed from the room, and the peer remains. -/
theorem claim_C9 {reg : Registry} (hkeys : (reg.map Prod.fst).Nodup)
    {roomInfo : String} {clients : List RoomClient}
    (hroom : lookupRoom reg roomInfo = some clients)
    (hnodup : (clients.map RoomClient.clientId).Nodup)
    {s r : RoomClient} (_hs : s ∈ clients) (hr : r ∈ clients)
    (hneid : r.clientId ≠ s.clientId) (hneu : r.userId ≠ s.userId)
    (hopen : r.wsOpen = true) (now : Nat)
    (_hstale : 30000 < now - s.lastPing) (hfresh : ¬(30000 < now - r.lastPing)) :
    (sendsTo (closeHandler reg roomInfo s).2 r.clientId =
        [Send.mk r.clientId (OutMsg.userLeft s.userId)]
      ∧ memberOf (closeHandler reg roomInfo s).1 roomInfo s.clientId = false
      ∧ memberOf (closeHandler reg roomInfo s).1 roomInfo r.clientId = true)
    ∧ (sendsTo (closeHandler (cleanupTick reg now).1 roomInfo s).2 r.clientId =
        [Send.mk r.clientId (OutMsg.userLeft s.userId)]
      ∧ memberOf (closeHandler (cleanupTick reg now).1 roomInfo s).1 roomInfo
          s.clientId = false
      ∧ memberOf (closeHandler (cleanupTick reg now).1 roomInfo s).1 roomInfo
          r.clientId = true) := by
  have hrf : r ∈ clients.filter fun c => !(30000 < now - c.lastPing) :=
    List.mem_filter.mpr ⟨hr, by simpa using hfresh⟩
  have hempty : (clients.filter fun c => !(30000 < now - c.lastPing)).isEmpty = false :=
    mem_isEmpty_false hrf
  have hcl : lookupRoom (cleanupTick reg now).1 roomInfo =
      some (clients.filter fun c => !(30000 < now - c.lastPing)) := by
    rw [lookup_cleanupTick now hkeys hroom, hempty]
    rfl
  have hnodup' : ((clients.filter fun c => !(30000 < now - c.lastPing)).map
      RoomClient.clientId).Nodup :=
    hnodup.sublist (List.Sublist.map _ (List.filter_sublist clients))
  refine ⟨⟨?_, closeHandler_memberOf_self hroom s,
      closeHandler_memberOf_other hroom hr hneid⟩,
    ⟨?_, closeHandler_memberOf_self hcl s,
      closeHandler_memberOf_other hcl hrf hneid⟩⟩
  · rw [closeHandler_snd hroom, sendsTo_loopSends hnodup hr]
    simp [othersGuard, bne_iff_ne, hneu, hopen]
  · rw [closeHandler_snd hcl, sendsTo_loopSends hnodup' hrf]
    simp [othersGuard, bne_iff_ne, hneu, hopen]

/-- Witness for C9: room `board:b` holds `u` (id 1, silent since 0) and
`v` (id 2, heard at 50000); at time 40000 session 1 is overdue.  Both on
the plain close path and on the eviction-then-close path, id 2 receives
exactly one `user-left` for `u`, id 1 is out of the room, id 2 remains. -/
theorem claim_C9_witness :
    (sendsTo (closeHandler
        [("board:b", [RoomClient.mk 1 "u" 0 "U" none "#2563eb" true,
                      RoomClient.mk 2 "v" 50000 "V" none "#059669" true])]
        "board:b" (RoomClient.mk 1 "u" 0 "U" none "#2563eb" true)).2 2 =
      [Send.mk 2 (OutMsg.userLeft "u")])
    ∧ (sendsTo (closeHandler
        (cleanupTick
          [("board:b", [RoomClient.mk 1 "u" 0 "U" none "#2563eb" true,
                        RoomClient.mk 2 "v" 50000 "V" none "#059669" true])] 40000).1
        "board:b" (RoomClient.mk 1 "u" 0 "U" none "#2563eb" true)).2 2 =
      [Send.mk 2 (OutMsg.userLeft "u")])
    ∧ memberOf (closeHandler
        (cleanupTick
          [("board:b", [RoomClient.mk 1 "u" 0 "U" none "#2563eb" true,
                        RoomClient.mk 2 "v" 50000 "V" none "#059669" true])] 40000).1
        "board:b" (RoomClient.mk 1 "u" 0 "U" none "#2563eb" true)).1 "board:b" 1 = false
    ∧ memberOf (closeHandler
        (cleanupTick
          [("board:b", [RoomClient.mk 1 "u" 0 "U" none "#2563eb" true,
                        RoomClient.mk 2 "v" 50000 "V" none "#059669" true])] 40000).1
        "board:b" (RoomClient.mk 1 "u" 0 "U" none "#2563eb" true)).1 "board:b" 2 = true := by
  have h := @claim_C9
    [("board:b", [RoomClient.mk 1 "u" 0 "U" none "#2563eb" true,
                  RoomClient.mk 2 "v" 50000 "V" none "#059669" true])]
    (by decide)
    "board:b"
    [RoomClient.mk 1 "u" 0 "U" none "#2563eb" true,
     RoomClient.mk 2 "v" 50000 "V" none "#059669" true]
    rfl (by decide)
    (RoomClient.mk 1 "u" 0 "U" none "#2563eb" true)
    (RoomClient.mk 2 "v" 50000 "V" none "#059669" true)
    (List.mem_cons_self _ _)
    (List.mem_cons_of_mem _ (List.mem_cons_self _ _))
    (by decide) (by decide) rfl 40000 (by decide) (by decide)
  exact ⟨h.1.1, h.2.1, h.2.2.1, h.2.2.2⟩

/-! ### Helper lemmas about the connection handler -/

/-- Recognizer for `active-users` payloads. -/
def isActiveUsersPayload : OutMsg → Bool
  | OutMsg.activeUsers _ => true
  | _ => false

/-- Recognizer for `user-joined` payloads. -/
def isUserJoinedPayload : OutMsg → Bool
  | OutMsg.userJoined _ _ _ => true
  | _ => false

theorem filter_payload_loopSends (cl : List RoomClient) (g : RoomClient → Bool)
    (p : OutMsg) (f : OutMsg → Bool) :
    (loopSends cl g p).filter (fun sd => f sd.payload) =
      if f p then loopSends cl g p else [] := by
  by_cases hf : f p = true
  · rw [if_pos hf]
    apply List.filter_eq_self.mpr
    intro sd hsd
    obtain ⟨c, _, _, he⟩ := of_mem_loopSends hsd
    rw [he]
    simpa using hf
  · rw [if_neg hf]
    apply List.filter_eq_nil_iff.mpr
    intro sd hsd
    obtain ⟨c, _, _, he⟩ := of_mem_loopSends hsd
    rw [he]
    simpa using hf

theorem sendActiveUsers_open {reg : Registry} {roomInfo : String}
    {clients : List RoomClient} (h : lookupRoom reg roomInfo = some clients)
    {target : RoomClient} (ht : target.wsOpen = true) :
    sendActiveUsers reg roomInfo target =
      [Send.mk target.clientId (OutMsg.activeUsers (clients.map fun c =>
        UserEntry.mk c.userId c.username (cursorOrNull c.cursor) c.color))] := by
  simp [sendActiveUsers, h, ht]

theorem connect_guardFail {pathSegments : List String} {token : Option String}
    (h : (roomInfoOk pathSegments.getLast? && tokenTruthy token) = false)
    (env : AdmitEnv) (reg : Registry) (newClientId now : Nat) (op : Bool) :
    connect env reg pathSegments token newClientId now op =
      (reg, AdmitResult.rejected 1008 "Invalid connection parameters", []) := by
  simp [connect, h]

theorem connect_eq_authed {pathSegments : List String} {ri t : String}
    (hlast : pathSegments.getLast? = some ri)
    (hpre : strStartsWith ri "board:" = true) (htne : (t != "") = true)
    (env : AdmitEnv) (reg : Registry) (newClientId now : Nat) (op : Bool) :
    connect env reg pathSegments (some t) newClientId now op =
      connectAuthed env reg ri t newClientId now op := by
  simp [connect, hlast, roomInfoOk, hpre, tokenTruthy, htne]

theorem connectAuthed_verFail {env : AdmitEnv} {t : String}
    (h : verifyToken env t = none) (reg : Registry) (ri : String)
    (newClientId now : Nat) (op : Bool) :
    connectAuthed env reg ri t newClientId now op =
      (reg, AdmitResult.rejected 1008 "Authentication failed", []) := by
  simp [connectAuthed, h]

theorem connectAuthed_memErr {env : AdmitEnv} {t : String} {d : DecodedUser}
    {ri : String} {e : String} (hv : verifyToken env t = some d)
    (hm : env.isUserBoardMember (boardIdOf ri) d.id = Except.error e)
    (reg : Registry) (newClientId now : Nat) (op : Bool) :
    connectAuthed env reg ri t newClientId now op =
      (reg, AdmitResult.rejected 1011 "Internal server error", []) := by
  simp [connectAuthed, hv, hm]

theorem connectAuthed_notMember {env : AdmitEnv} {t : String} {d : DecodedUser}
    {ri : String} (hv : verifyToken env t = some d)
    (hm : env.isUserBoardMember (boardIdOf ri) d.id = Except.ok false)
    (reg : Registry) (newClientId now : Nat) (op : Bool) :
    connectAuthed env reg ri t newClientId now op =
      (reg, AdmitResult.rejected 1008 "Not authorized", []) := by
  simp [connectAuthed, hv, hm]

theorem connectAuthed_findErr {env : AdmitEnv} {t : String} {d : DecodedUser}
    {ri : String} {e : String} (hv : verifyToken env t = some d)
    (hm : env.isUserBoardMember (boardIdOf ri) d.id = Except.ok true)
    (hf : env.findUser d.id = Except.error e)
    (reg : Registry) (newClientId now : Nat) (op : Bool) :
    connectAuthed env reg ri t newClientId now op =
      (reg, AdmitResult.rejected 1011 "Internal server error", []) := by
  simp [connectAuthed, hv, hm, hf]

theorem connectAuthed_success {env : AdmitEnv} {t : String} {d : DecodedUser}
    (hver : verifyToken env t = some d) {roomInfo : String}
    (hmem : env.isUserBoardMember (boardIdOf roomInfo) d.id = Except.ok true)
    {user : Option UserRow} (huser : env.findUser d.id = Except.ok user)
    (reg : Registry) (newClientId now : Nat) (op : Bool) :
    connectAuthed env reg roomInfo t newClientId now op =
      (joinRoom reg roomInfo
         (RoomClient.mk newClientId d.id now (displayNameOf user) none env.randColor op),
       AdmitResult.admitted (boardIdOf roomInfo) d.id,
       loopSends ((lookupRoom reg roomInfo).getD [] ++
           [RoomClient.mk newClientId d.id now (displayNameOf user) none env.randColor op])
         (othersGuard d.id)
         (OutMsg.userJoined d.id (displayNameOf user) env.randColor)
       ++ sendActiveUsers
            (joinRoom reg roomInfo
              (RoomClient.mk newClientId d.id now (displayNameOf user) none env.randColor op))
            roomInfo
            (RoomClient.mk newClientId d.id now (displayNameOf user) none env.randColor op)
       ++ [Send.mk newClientId
            (OutMsg.connectionAck d.id env.randColor (displayNameOf user))]) := by
  simp only [connectAuthed, hver, hmem, huser, lookup_joinRoom, Option.getD_some]

theorem connect_success {env : AdmitEnv} {t : String} {d : DecodedUser}
    (hver : verifyToken env t = some d) {roomInfo : String}
    (hmem : env.isUserBoardMember (boardIdOf roomInfo) d.id = Except.ok true)
    {user : Option UserRow} (huser : env.findUser d.id = Except.ok user)
    (reg : Registry) {pathSegments : List String}
    (hlast : pathSegments.getLast? = some roomInfo)
    (hpre : strStartsWith roomInfo "board:" = true) (htne : (t != "") = true)
    (newClientId now : Nat) (op : Bool) :
    connect env reg pathSegments (some t) newClientId now op =
      (joinRoom reg roomInfo
         (RoomClient.mk newClientId d.id now (displayNameOf user) none env.randColor op),
       AdmitResult.admitted (boardIdOf roomInfo) d.id,
       loopSends ((lookupRoom reg roomInfo).getD [] ++
           [RoomClient.mk newClientId d.id now (displayNameOf user) none env.randColor op])
         (othersGuard d.id)
         (OutMsg.userJoined d.id (displayNameOf user) env.randColor)
       ++ sendActiveUsers
            (joinRoom reg roomInfo
              (RoomClient.mk newClientId d.id now (displayNameOf user) none env.randColor op))
            roomInfo
            (RoomClient.mk newClientId d.id now (displayNameOf user) none env.randColor op)
       ++ [Send.mk newClientId
            (OutMsg.connectionAck d.id env.randColor (displayNameOf user))]) := by
  rw [connect_eq_authed hlast hpre htne]
  exact connectAuthed_success hver hmem huser reg newClientId now op

/-! ### Claim C3 -/

/-- C3 (amended).  On a successful admission the `active-users` snapshot
is sent exactly once, to the joining session, and lists exactly the
sessions in the room at that moment — the previously present sessions
*and the joining session itself*, each once, in set order, with its
`userId`, display name (`username`), last-known cursor (or JSON `null`)
and color.  The original claim — that the joiner is not included — fails:
the source adds the new `RoomClient` to the set *before* calling
`sendActiveUsers`, which maps over every client with no exclusion (see
the counterexample). -/
theorem claim_C3 (env : AdmitEnv) (reg : Registry) {pathSegments : List String}
    {roomInfo : String} (hlast : pathSegments.getLast? = some roomInfo)
    (hpre : strStartsWith roomInfo "board:" = true)
    {t : String} (htne : (t != "") = true)
    {d : DecodedUser} (hver : verifyToken env t = some d)
    (hmem : env.isUserBoardMember (boardIdOf roomInfo) d.id = Except.ok true)
    {user : Option UserRow} (huser : env.findUser d.id = Except.ok user)
    (newClientId now : Nat) :
    ((connect env reg pathSegments (some t) newClientId now true).2.2).filter
        (fun sd => isActiveUsersPayload sd.payload) =
      [Send.mk newClientId (OutMsg.activeUsers
        (((lookupRoom reg roomInfo).getD [] ++
            [RoomClient.mk newClientId d.id now (displayNameOf user) none
              env.randColor true]).map
          (fun c => UserEntry.mk c.userId c.username (cursorOrNull c.cursor) c.color)))] := by
  rw [connect_success hver hmem huser reg hlast hpre htne newClientId now true]
  rw [show ∀ (x : Registry) (y : AdmitResult) (z : List Send), (x, y, z).2.2 = z
    from fun _ _ _ => rfl]
  rw [List.filter_append, List.filter_append, filter_payload_loopSends,
    sendActiveUsers_open (lookup_joinRoom reg roomInfo _) rfl]
  simp [isActiveUsersPayload]

/-- Witness for C3: board `board:c` already holds `w` (id 5, open, no
cursor); user `u` joins with a valid token as id 6.  The snapshot sent to
id 6 lists `w` and then the joiner itself. -/
theorem claim_C3_witness :
    ((connect
        (AdmitEnv.mk (fun tok => if tok = "tk" then some (DecodedUser.mk "u" none) else none)
          (fun _ _ => Except.ok true) (fun _ => Except.ok none) "#7c3aed")
        [("board:c", [RoomClient.mk 5 "w" 0 "Wil" none "#0891b2" true])]
        ["yjs-ws", "board:c"] (some "tk") 6 11 true).2.2).filter
        (fun sd => isActiveUsersPayload sd.payload) =
      [Send.mk 6 (OutMsg.activeUsers
        [UserEntry.mk "w" "Wil" Json.null "#0891b2",
         UserEntry.mk "u" "Anonymous" Json.null "#7c3aed"])] := by
  have h := @claim_C3
    (AdmitEnv.mk (fun tok => if tok = "tk" then some (DecodedUser.mk "u" none) else none)
      (fun _ _ => Except.ok true) (fun _ => Except.ok none) "#7c3aed")
    [("board:c", [RoomClient.mk 5 "w" 0 "Wil" none "#0891b2" true])]
    ["yjs-ws", "board:c"] "board:c"
    rfl rfl "tk" rfl (DecodedUser.mk "u" none) rfl rfl
    none rfl 6 11
  simpa using h

/-- Counterexample to C3 as stated.  Board `board:b` holds `v` (id 1, open,
with a cursor); user `u` joins as id 2.  The claim requires the snapshot
sent to id 2 to contain exactly the *other* session `v`; the snapshot in
fact also contains the joining session `u` itself (second entry of the
`active-users` list). -/
theorem claim_C3_counterexample :
    (connect
        (AdmitEnv.mk (fun tok => if tok = "tok" then some (DecodedUser.mk "u" none) else none)
          (fun _ _ => Except.ok true) (fun _ => Except.ok none) "#2563eb")
        [("board:b", [RoomClient.mk 1 "v" 0 "Bella"
            (some (Json.obj [("x", Json.num 3)])) "#059669" true])]
        ["yjs-ws", "board:b"] (some "tok") 2 5 true).2.2 =
      [Send.mk 1 (OutMsg.userJoined "u" "Anonymous" "#2563eb"),
       Send.mk 2 (OutMsg.activeUsers
         [UserEntry.mk "v" "Bella" (Json.obj [("x", Json.num 3)]) "#059669",
          UserEntry.mk "u" "Anonymous" Json.null "#2563eb"]),
       Send.mk 2 (OutMsg.connectionAck "u" "#2563eb" "Anonymous")] := rfl

/-! ### Claim C4 -/

/-- C4 (confirmed).  Admission closes with the policy-violation code 1008
(and a human-readable reason) exactly when the last path segment lacks the
`board:` prefix, or the token parameter is absent (`null` — and the empty
`?token=`, equally falsy to the guard, also lands here, with verification
of the empty string failing under the token library, which rejects an
empty JWT: hypothesis `hEmpty`), or token verification fails, or the
membership check returns false; it closes with the internal-error code
1011 exactly when those checks pass but an external call (membership
check, user lookup) throws; and on every rejection the registry is
untouched and nothing is sent. -/
theorem claim_C4 (env : AdmitEnv) (hEmpty : env.jwtVerify "" = none)
    (reg : Registry) (pathSegments : List String) (token : Option String)
    (newClientId now : Nat) (op : Bool) :
    ((∃ reason, (connect env reg pathSegments token newClientId now op).2.1 =
        AdmitResult.rejected 1008 reason) ↔
      (roomInfoOk pathSegments.getLast? = false ∨ token = none ∨
        verifyToken env (token.getD "") = none ∨
        (∃ d, verifyToken env (token.getD "") = some d ∧
          env.isUserBoardMember (boardIdOf (pathSegments.getLast?.getD "")) d.id =
            Except.ok false)))
    ∧ (∀ code reason,
        (connect env reg pathSegments token newClientId now op).2.1 =
          AdmitResult.rejected code reason →
        (connect env reg pathSegments token newClientId now op).1 = reg ∧
        (connect env reg pathSegments token newClientId now op).2.2 = [])
    ∧ ((∃ reason, (connect env reg pathSegments token newClientId now op).2.1 =
          AdmitResult.rejected 1011 reason) ↔
        (roomInfoOk pathSegments.getLast? = true ∧ tokenTruthy token = true ∧
          ∃ d, verifyToken env (token.getD "") = some d ∧
            ((∃ e, env.isUserBoardMember (boardIdOf (pathSegments.getLast?.getD ""))
                d.id = Except.error e) ∨
             (env.isUserBoardMember (boardIdOf (pathSegments.getLast?.getD "")) d.id =
                Except.ok true ∧ ∃ e, env.findUser d.id = Except.error e)))) := by
  rcases token with _ | t
  · have hg : (roomInfoOk pathSegments.getLast? && tokenTruthy (none : Option String))
        = false := by simp [tokenTruthy]
    rw [connect_guardFail hg]
    refine ⟨iff_of_true ⟨_, rfl⟩ (Or.inr (Or.inl rfl)),
      fun code reason _ => ⟨rfl, rfl⟩, iff_of_false ?_ ?_⟩
    · rintro ⟨r, hr⟩
      simp at hr
    · rintro ⟨_, htk, _⟩
      simp [tokenTruthy] at htk
  · by_cases hte : t = ""
    · subst hte
      have hg : (roomInfoOk pathSegments.getLast? && tokenTruthy (some "")) = false := by
        simp [tokenTruthy]
      rw [connect_guardFail hg]
      refine ⟨iff_of_true ⟨_, rfl⟩ ?_, fun code reason _ => ⟨rfl, rfl⟩,
        iff_of_false ?_ ?_⟩
      · right; right; left
        show verifyToken env "" = none
        rw [show verifyToken env "" = env.jwtVerify "" from rfl, hEmpty]
      · rintro ⟨r, hr⟩
        simp at hr
      · rintro ⟨_, htk, _⟩
        simp [tokenTruthy] at htk
    · have htne : (t != "") = true := by simpa [bne_iff_ne] using hte
      rcases hlast : pathSegments.getLast? with _ | ri
      · have hg : (roomInfoOk pathSegments.getLast? && tokenTruthy (some t)) = false := by
          simp [hlast, roomInfoOk]
        rw [connect_guardFail hg]
        refine ⟨iff_of_true ⟨_, rfl⟩ (Or.inl (by simp [hlast, roomInfoOk])),
          fun code reason _ => ⟨rfl, rfl⟩, iff_of_false ?_ ?_⟩
        · rintro ⟨r, hr⟩
          simp at hr
        · rintro ⟨hro, _, _⟩
          simp [roomInfoOk] at hro
      · by_cases hpre : strStartsWith ri "board:" = true
        · rw [connect_eq_authed hlast hpre htne]
          simp only [Option.getD_some]
          rcases hv : verifyToken env t with _ | d
          · rw [connectAuthed_verFail hv]
            refine ⟨iff_of_true ⟨_, rfl⟩ (Or.inr (Or.inr (Or.inl rfl))),
              fun code reason _ => ⟨rfl, rfl⟩, iff_of_false ?_ ?_⟩
            · rintro ⟨r, hr⟩
              simp at hr
            · rintro ⟨_, _, d', hd', _⟩
              cases hd'
          · rcases hm : env.isUserBoardMember (boardIdOf ri) d.id with e | b
            · rw [connectAuthed_memErr hv hm]
              refine ⟨iff_of_false ?_ ?_, fun code reason _ => ⟨rfl, rfl⟩,
                iff_of_true ⟨_, rfl⟩ ⟨by simp [roomInfoOk, hpre],
                  by simp [tokenTruthy, htne], d, rfl, Or.inl ⟨e, hm⟩⟩⟩
              · rintro ⟨r, hr⟩
                simp at hr
              · rintro (h | h | h | ⟨d', hd', hm'⟩)
                · simp [roomInfoOk, hpre] at h
                · cases h
                · cases h
                · injection hd' with hd'
                  subst hd'
                  rw [hm] at hm'
                  cases hm'
            · cases b
              · rw [connectAuthed_notMember hv hm]
                refine ⟨iff_of_true ⟨_, rfl⟩ (Or.inr (Or.inr (Or.inr ⟨d, rfl, hm⟩))),
                  fun code reason _ => ⟨rfl, rfl⟩, iff_of_false ?_ ?_⟩
                · rintro ⟨r, hr⟩
                  simp at hr
                · rintro ⟨_, _, d', hd', hcase⟩
                  injection hd' with hd'
                  subst hd'
                  rcases hcase with ⟨e, he⟩ | ⟨hok', _⟩
                  · rw [hm] at he
                    cases he
                  · rw [hm] at hok'
                    injection hok' with hok'
                    cases hok'
              · rcases hf : env.findUser d.id with e | user
                · rw [connectAuthed_findErr hv hm hf]
                  refine ⟨iff_of_false ?_ ?_, fun code reason _ => ⟨rfl, rfl⟩,
                    iff_of_true ⟨_, rfl⟩ ⟨by simp [roomInfoOk, hpre],
                      by simp [tokenTruthy, htne], d, rfl, Or.inr ⟨hm, e, hf⟩⟩⟩
                  · rintro ⟨r, hr⟩
                    simp at hr
                  · rintro (h | h | h | ⟨d', hd', hm'⟩)
                    · simp [roomInfoOk, hpre] at h
                    · cases h
                    · cases h
                    · injection hd' with hd'
                      subst hd'
                      rw [hm] at hm'
                      cases hm'
                · rw [connectAuthed_success hv hm hf]
                  refine ⟨iff_of_false ?_ ?_, fun code reason h => ?_,
                    iff_of_false ?_ ?_⟩
                  · rintro ⟨r, hr⟩
                    simp at hr
                  · rintro (h | h | h | ⟨d', hd', hm'⟩)
                    · simp [roomInfoOk, hpre] at h
                    · cases h
                    · cases h
                    · injection hd' with hd'
                      subst hd'
                      rw [hm] at hm'
                      cases hm'
                  · exact absurd h (by simp)
                  · rintro ⟨r, hr⟩
                    simp at hr
                  · rintro ⟨_, _, d', hd', hcase⟩
                    injection hd' with hd'
                    subst hd'
                    rcases hcase with ⟨e, he⟩ | ⟨_, e, hfe⟩
                    · rw [hm] at he
                      cases he
                    · rw [hf] at hfe
                      cases hfe
        · have hg : (roomInfoOk pathSegments.getLast? && tokenTruthy (some t)) = false := by
            simp [hlast, roomInfoOk, Bool.not_eq_true _ ▸ hpre]
          rw [connect_guardFail hg]
          refine ⟨iff_of_true ⟨_, rfl⟩
              (Or.inl (by simp [hlast, roomInfoOk, Bool.not_eq_true _ ▸ hpre])),
            fun code reason _ => ⟨rfl, rfl⟩, iff_of_false ?_ ?_⟩
          · rintro ⟨r, hr⟩
            simp at hr
          · rintro ⟨hro, _, _⟩
            simp [roomInfoOk] at hro
            exact hpre hro

/-- Witness for C4: with a verifier that rejects everything, a connection
to `/yjs-ws/board:b` with no token is refused without touching the
registry or sending anything. -/
theorem claim_C4_witness :
    (connect (AdmitEnv.mk (fun _ => none) (fun _ _ => Except.ok false)
        (fun _ => Except.ok none) "#2563eb")
      [] ["yjs-ws", "board:b"] none 1 0 true).1 = ([] : Registry)
    ∧ (connect (AdmitEnv.mk (fun _ => none) (fun _ _ => Except.ok false)
        (fun _ => Except.ok none) "#2563eb")
      [] ["yjs-ws", "board:b"] none 1 0 true).2.2 = [] := by
  have h := claim_C4 (AdmitEnv.mk (fun _ => none) (fun _ _ => Except.ok false)
      (fun _ => Except.ok none) "#2563eb") rfl
    [] ["yjs-ws", "board:b"] none 1 0 true
  exact h.2.1 1008 "Invalid connection parameters" rfl

/-! ### Claim C10 -/

theorem filter_userJoined_sendActiveUsers (reg : Registry) (ri : String)
    (target : RoomClient) :
    (sendActiveUsers reg ri target).filter
      (fun sd => isUserJoinedPayload sd.payload) = [] := by
  unfold sendActiveUsers
  split
  · rfl
  · split
    · simp [isUserJoinedPayload]
    · rfl

/-- C10 (amended).  The five exclude-the-originator loops — binary relay,
`cursor-update`, `board-update` rebroadcast, `user-joined` broadcast and
`user-left` broadcast — all exclude recipients by comparing `userId` to
the originating user's id (`othersGuard`), so through *those loops* no
session whose `userId` equals the originator's ever receives anything when
that user has several concurrent sessions.  The original claim's
unqualified consequent ("never receives *any* frame") is false: the
`invitation-response` path selects recipients by `inviterId` match
instead, and delivers a frame from one of a user's sessions to that same
user's sessions when `inviterId` is that user's id (see the
counterexample). -/
theorem claim_C10 :
    (∀ (reg : Registry) (roomInfo : String) (clients : List RoomClient)
        (sender : RoomClient) (now : Nat) (bytes : List Nat) (parsed : Option Json),
        lookupRoom reg roomInfo = some clients →
        (clients.map RoomClient.clientId).Nodup →
        isJsonSniff bytes = false →
        ∀ c ∈ clients, c.userId = sender.userId →
          sendsTo (onMessage reg roomInfo now sender bytes parsed).2 c.clientId = [])
    ∧ (∀ (reg : Registry) (roomInfo : String) (clients : List RoomClient)
        (sender : RoomClient) (now : Nat) (bytes : List Nat) (j : Json),
        lookupRoom reg roomInfo = some clients →
        (clients.map RoomClient.clientId).Nodup →
        isJsonSniff bytes = true →
        j.getField "type" = some (Json.str "cursor-position") →
        ∀ c ∈ clients, c.userId = sender.userId →
          sendsTo (onMessage reg roomInfo now sender bytes (some j)).2 c.clientId = [])
    ∧ (∀ (reg : Registry) (roomInfo : String) (clients : List RoomClient)
        (sender : RoomClient) (now : Nat) (bytes : List Nat) (j : Json),
        lookupRoom reg roomInfo = some clients →
        (clients.map RoomClient.clientId).Nodup →
        isJsonSniff bytes = true →
        j.getField "type" = some (Json.str "board-update") →
        ∀ c ∈ clients, c.userId = sender.userId →
          sendsTo (onMessage reg roomInfo now sender bytes (some j)).2 c.clientId = [])
    ∧ (∀ (env : AdmitEnv) (reg : Registry) (pathSegments : List String)
        (roomInfo t : String) (d : DecodedUser) (user : Option UserRow)
        (cid now : Nat) (op : Bool),
        pathSegments.getLast? = some roomInfo →
        strStartsWith roomInfo "board:" = true → (t != "") = true →
        verifyToken env t = some d →
        env.isUserBoardMember (boardIdOf roomInfo) d.id = Except.ok true →
        env.findUser d.id = Except.ok user →
        ((((lookupRoom reg roomInfo).getD [] ++
            [RoomClient.mk cid d.id now (displayNameOf user) none env.randColor op]).map
          RoomClient.clientId).Nodup) →
        ∀ c ∈ ((lookupRoom reg roomInfo).getD [] ++
            [RoomClient.mk cid d.id now (displayNameOf user) none env.randColor op]),
          c.userId = d.id →
          sendsTo (((connect env reg pathSegments (some t) cid now op).2.2).filter
            (fun sd => isUserJoinedPayload sd.payload)) c.clientId = [])
    ∧ (∀ (reg : Registry) (roomInfo : String) (clients : List RoomClient)
        (rc : RoomClient),
        lookupRoom reg roomInfo = some clients →
        (clients.map RoomClient.clientId).Nodup →
        ∀ c ∈ clients, c.userId = rc.userId →
          sendsTo (closeHandler reg roomInfo rc).2 c.clientId = []) := by
  refine ⟨?_, ?_, ?_, ?_, ?_⟩
  · intro reg roomInfo clients sender now bytes parsed hroom hnodup hbin c hc hcu
    rw [onMessage_eq hroom, relayFrame_binary hbin]
    rw [sendsTo_loopSends hnodup hc]
    simp [othersGuard, hcu]
  · intro reg roomInfo clients sender now bytes j hroom hnodup hsniff ht c hc hcu
    rw [onMessage_eq hroom, relayFrame_cursor hsniff ht]
    rw [sendsTo_loopSends hnodup hc]
    simp [othersGuard, hcu]
  · intro reg roomInfo clients sender now bytes j hroom hnodup hsniff ht c hc hcu
    rw [onMessage_eq hroom, relayFrame_board hsniff ht]
    rw [sendsTo_loopSends hnodup hc]
    simp [othersGuard, hcu]
  · intro env reg pathSegments roomInfo t d user cid now op hlast hpre htne hver
      hmem huser hnodup c hc hcu
    rw [connect_success hver hmem huser reg hlast hpre htne cid now op]
    rw [show ∀ (x : Registry) (y : AdmitResult) (z : List Send), (x, y, z).2.2 = z
      from fun _ _ _ => rfl]
    rw [List.filter_append, List.filter_append, filter_payload_loopSends,
      filter_userJoined_sendActiveUsers]
    simp only [isUserJoinedPayload, if_true, List.filter_cons, List.filter_nil,
      List.append_nil, Bool.false_eq_true, if_false]
    rw [sendsTo_loopSends hnodup hc]
    simp [othersGuard, hcu]
  · intro reg roomInfo clients rc hroom hnodup c hc hcu
    rw [closeHandler_snd hroom, sendsTo_loopSends hnodup hc]
    simp [othersGuard, hcu]

/-- Witness for C10: user `u` has two open sessions (ids 1 and 2) in
`board:b`; a binary frame from session 1 reaches session 2 through none of
the five loops (empty delivery), and likewise the close handler's
`user-left` for session 1 is not delivered to session 2. -/
theorem claim_C10_witness :
    sendsTo (onMessage
        [("board:b", [RoomClient.mk 1 "u" 0 "A" none "#2563eb" true,
                      RoomClient.mk 2 "u" 0 "A2" none "#d97706" true])]
        "board:b" 5 (RoomClient.mk 1 "u" 0 "A" none "#2563eb" true) [7] none).2 2 = []
    ∧ sendsTo (closeHandler
        [("board:b", [RoomClient.mk 1 "u" 0 "A" none "#2563eb" true,
                      RoomClient.mk 2 "u" 0 "A2" none "#d97706" true])]
        "board:b" (RoomClient.mk 1 "u" 0 "A" none "#2563eb" true)).2 2 = [] := by
  constructor
  · exact claim_C10.1
      [("board:b", [RoomClient.mk 1 "u" 0 "A" none "#2563eb" true,
                    RoomClient.mk 2 "u" 0 "A2" none "#d97706" true])]
      "board:b"
      [RoomClient.mk 1 "u" 0 "A" none "#2563eb" true,
       RoomClient.mk 2 "u" 0 "A2" none "#d97706" true]
      (RoomClient.mk 1 "u" 0 "A" none "#2563eb" true) 5 [7] none rfl (by decide) rfl
      (RoomClient.mk 2 "u" 0 "A2" none "#d97706" true)
      (List.mem_cons_of_mem _ (List.mem_cons_self _ _)) rfl
  · exact claim_C10.2.2.2.2
      [("board:b", [RoomClient.mk 1 "u" 0 "A" none "#2563eb" true,
                    RoomClient.mk 2 "u" 0 "A2" none "#d97706" true])]
      "board:b"
      [RoomClient.mk 1 "u" 0 "A" none "#2563eb" true,
       RoomClient.mk 2 "u" 0 "A2" none "#d97706" true]
      (RoomClient.mk 1 "u" 0 "A" none "#2563eb" true) rfl (by decide)
      (RoomClient.mk 2 "u" 0 "A2" none "#d97706" true)
      (List.mem_cons_of_mem _ (List.mem_cons_self _ _)) rfl

/-- Counterexample to C10 as stated.  User `u` has two open sessions
(ids 1 and 2) in `board:b`.  Session 1 sends the frame
`{"type":"invitation-response","inviterId":"u"}` (UTF-8 bytes plus its
parse).  The claim says none of `u`'s sessions ever receives any frame
originating from another of `u`'s sessions; in fact the
`invitation-response` path delivers the frame to *both* of `u`'s sessions
— session 2 receives a frame originating from session 1 (and session 1
even receives its own frame back). -/
theorem claim_C10_counterexample :
    (onMessage
      [("board:b", [RoomClient.mk 1 "u" 0 "A" none "#2563eb" true,
                    RoomClient.mk 2 "u" 0 "A2" none "#d97706" true])]
      "board:b" 5 (RoomClient.mk 1 "u" 0 "A" none "#2563eb" true)
      [123, 34, 116, 121, 112, 101, 34, 58, 34, 105, 110, 118, 105, 116, 97,
       116, 105, 111, 110, 45, 114, 101, 115, 112, 111, 110, 115, 101, 34, 44,
       34, 105, 110, 118, 105, 116, 101, 114, 73, 100, 34, 58, 34, 117, 34, 125]
      (some (Json.obj [("type", Json.str "invitation-response"),
                       ("inviterId", Json.str "u")]))).2 =
      [Send.mk 1 (OutMsg.raw
        [123, 34, 116, 121, 112, 101, 34, 58, 34, 105, 110, 118, 105, 116, 97,
         116, 105, 111, 110, 45, 114, 101, 115, 112, 111, 110, 115, 101, 34, 44,
         34, 105, 110, 118, 105, 116, 101, 114, 73, 100, 34, 58, 34, 117, 34, 125]),
       Send.mk 2 (OutMsg.raw
        [123, 34, 116, 121, 112, 101, 34, 58, 34, 105, 110, 118, 105, 116, 97,
         116, 105, 111, 110, 45, 114, 101, 115, 112, 111, 110, 115, 101, 34, 44,
         34, 105, 110, 118, 105, 116, 101, 114, 73, 100, 34, 58, 34, 117, 34, 125])] := rfl

end WhiteBoard
